import Mathlib

/-!
# Verification of the life_risk_estimator risk-computation core

Shallow embedding of the Python sources under `backend/` into Lean:

* `backend/models/mortality_models.py`  — `MortalityModels` (baseline mortality,
  cause allocation, relative-risk adjustments, adjusted risk),
* `backend/models/prevent_equations.py` — `prevent_base` and its validation,
* `backend/models/pce_real_coefficients.py` — `RealPCECalculator`,
* `backend/calculators/mortality_calculator.py` — `model_interventions`,
* `backend/data_sources/relative_risks.py` — the shipped relative-risk table,
* `backend/api/mortality_api.py` — `_calculate_life_expectancy`.

Numbers that Python stores as floats are embedded as exact reals (`ℝ`), or as
rationals (`ℚ`) where only ordering and field arithmetic occur, so that the
branching structure stays decidable.  Exceptions (`raise`) are embedded as
`Option.none` results.  Python's insertion-ordered dict of causes is embedded as
a structure with one field per cause (the key set is fixed in the source).
-/

namespace LifeRisk

/-- One row of the SSA life table `ssa_life_tables_2021.csv`:
a 1-year death probability per sex at a given integer age. -/
structure LifeRow where
  age : ℤ
  male_qx : ℝ
  female_qx : ℝ

/-- The horizon conversion applied to the looked-up `qx` at the end of
`MortalityModels.calculate_baseline_mortality`; an unrecognized horizon string
raises `ValueError` (embedded as `none`).  Python's `** 0.5` on a float is real
exponentiation, embedded as `Real.rpow`. -/
noncomputable def horizonConvert (time_horizon : String) (qx : ℝ) : Option ℝ :=
  if time_horizon = "6_month" then some (1 - (1 - qx) ^ ((1 : ℝ) / 2))
  else if time_horizon = "1_year" then some qx
  else if time_horizon = "5_year" then some (1 - (1 - qx) ^ (5 : ℕ))
  else none

/-- The table lookup part of `calculate_baseline_mortality`: fails (raises)
when the table is missing/empty, when the age is outside `[min age, max age]`,
or when no row carries the requested age. -/
def lookupQx (ssa_data : List LifeRow) (age : ℤ) (sex : String) : Option ℝ :=
  match ssa_data with
  | [] => none
  | r :: rs =>
    let ages := (r :: rs).map LifeRow.age
    if age < ages.foldl min r.age ∨ age > ages.foldl max r.age then none
    else
      match (r :: rs).find? (fun row => row.age = age) with
      | none => none
      | some row => some (if sex = "male" then row.male_qx else row.female_qx)

/-- `MortalityModels.calculate_baseline_mortality`: look up the 1-year `qx`
for (age, sex) in the SSA table, then convert to the requested horizon. -/
noncomputable def calculate_baseline_mortality (ssa_data : List LifeRow) (age : ℤ)
    (sex : String) (time_horizon : String) : Option ℝ :=
  (lookupQx ssa_data age sex).bind (horizonConvert time_horizon)

/-- An age band of the CDC cause-of-death table, as parsed by
`allocate_cause_risks`: either a `"start-end"` inclusive range or the
open-ended `"85+"` band. -/
inductive AgeBand where
  | range (lo hi : ℤ)
  | plus85
deriving DecidableEq

/-- One row of `cdc_cause_death_2022.csv`: an age band with the percentage of
deaths for the five named causes. -/
structure CdcRow where
  band : AgeBand
  heart_disease_pct : ℝ
  cancer_pct : ℝ
  accidents_pct : ℝ
  stroke_pct : ℝ
  diabetes_pct : ℝ

/-- Whether `age` falls into an age band (the matching loop of
`allocate_cause_risks`). -/
def bandMatches (age : ℤ) : AgeBand → Bool
  | .range lo hi => lo ≤ age ∧ age ≤ hi
  | .plus85 => 85 ≤ age

/-- The per-cause risks dict; both allocation paths produce exactly these six
keys, so the dict is embedded as a fixed structure. -/
structure CauseRisks where
  heart_disease : ℝ
  cancer : ℝ
  accidents : ℝ
  stroke : ℝ
  diabetes : ℝ
  other : ℝ

/-- `MortalityModels.allocate_cause_risks`.  With CDC data: find the first
matching age band (raising, i.e. `none`, when none matches), scale the
baseline by each cause's percentage, and put the unallocated remainder in
`other`.  Without CDC data: one of three hard-coded tier tables.  (The dict
insertion order differs between paths; it is irrelevant for the values.) -/
noncomputable def allocate_cause_risks (cdc_data : Option (List CdcRow)) (age : ℤ)
    (baseline_risk : ℝ) : Option CauseRisks :=
  match cdc_data with
  | some rows =>
    match rows.find? (fun row => bandMatches age row.band) with
    | none => none
    | some row =>
      let hd := baseline_risk * (row.heart_disease_pct / 100)
      let ca := baseline_risk * (row.cancer_pct / 100)
      let ac := baseline_risk * (row.accidents_pct / 100)
      let st := baseline_risk * (row.stroke_pct / 100)
      let di := baseline_risk * (row.diabetes_pct / 100)
      some ⟨hd, ca, ac, st, di, baseline_risk - (hd + ca + ac + st + di)⟩
  | none =>
    if age < 25 then
      some ⟨baseline_risk * 0.1, baseline_risk * 0.2, baseline_risk * 0.4,
            baseline_risk * 0.05, baseline_risk * 0.05, baseline_risk * 0.2⟩
    else if age < 65 then
      some ⟨baseline_risk * 0.3, baseline_risk * 0.25, baseline_risk * 0.15,
            baseline_risk * 0.1, baseline_risk * 0.1, baseline_risk * 0.1⟩
    else
      some ⟨baseline_risk * 0.4, baseline_risk * 0.25, baseline_risk * 0.05,
            baseline_risk * 0.15, baseline_risk * 0.1, baseline_risk * 0.05⟩

/-! ## The shipped relative-risk database (`relative_risks.py`, `init_database`)

Only the scalar `value` entries are embedded; the source/CI metadata strings
and the non-scalar `bmi.optimal_range` entry are never consumed through
`get_relative_risk_value` and carry no behavior. -/

/-- The `(category, risk_factor, value)` triples written by
`RelativeRiskDatabase.init_database`. -/
def rrdbEntries : List (String × String × ℝ) :=
  [("smoking", "current_vs_never", 2.3),
   ("smoking", "current_vs_never_global", 2.5),
   ("smoking", "former_vs_never", 1.2),
   ("smoking", "years_to_never_equivalent", 15),
   ("blood_pressure", "per_20mmhg_sbp", 1.8),
   ("blood_pressure", "treatment_reduction", 0.7),
   ("bmi", "per_5_units", 1.15),
   ("fitness", "per_met", 0.85),
   ("fitness", "sedentary_vs_active", 1.4),
   ("alcohol", "moderate_vs_none", 1.0),
   ("alcohol", "heavy_vs_none", 1.3),
   ("alcohol", "binge_vs_none", 1.2),
   ("interventions", "quit_smoking", 0.8),
   ("interventions", "reduce_bp_10mmhg", 0.85),
   ("interventions", "improve_fitness", 0.9),
   ("interventions", "lose_weight_5bmi", 0.9)]

/-- Raw lookup of a `value` in the database (`get_relative_risk`); a missing
key raises, embedded as `none`. -/
noncomputable def rrdbLookup (category risk_factor : String) : Option ℝ :=
  (rrdbEntries.find? (fun e => e.1 = category ∧ e.2.1 = risk_factor)).map
    (fun e => e.2.2)

/-- `RelativeRiskDatabase.get_relative_risk_value` with the default
`population="us"`: prefer a `"_us"`-suffixed entry, then a `"_global"` one,
then the plain key.  Every call site in the source queries an existing key, so
the raising case (`.getD 0`) is unreachable there. -/
noncomputable def get_relative_risk_value (category risk_factor : String) : ℝ :=
  match rrdbLookup category (risk_factor ++ "_us") with
  | some v => v
  | none =>
    match rrdbLookup category (risk_factor ++ "_global") with
    | some v => v
    | none => (rrdbLookup category risk_factor).getD 0

/-- The risk-factor dict of the mortality path and of
`calculate_from_risk_factors`; a `none` field is an absent dict key. -/
structure RiskFactors where
  smoking_status : Option String := none
  years_since_quit : Option ℝ := none
  systolic_bp : Option ℝ := none
  bp_treated : Option Bool := none
  bmi : Option ℝ := none
  fitness_level : Option String := none
  alcohol_pattern : Option String := none
  total_cholesterol : Option ℝ := none
  hdl_cholesterol : Option ℝ := none
  diabetes : Option Bool := none

/-- The adjustments dict built by `calculate_risk_adjustments`; each key is
present exactly when the corresponding risk factor is. -/
structure Adjustments where
  smoking_rr : Option ℝ
  bp_rr : Option ℝ
  bmi_rr : Option ℝ
  fitness_rr : Option ℝ
  alcohol_rr : Option ℝ

/-- `MortalityModels.calculate_risk_adjustments`.  (Note: through
`get_relative_risk_value`'s preference for `"_global"` entries, the `current`
smoking multiplier resolves to the global 2.5, not the U.S. 2.3.) -/
noncomputable def calculate_risk_adjustments (rf : RiskFactors) : Adjustments where
  smoking_rr :=
    match rf.smoking_status with
    | none => none
    | some smoking =>
      if smoking = "current" then
        some (get_relative_risk_value "smoking" "current_vs_never")
      else if smoking = "former" then
        let max_reduction := get_relative_risk_value "smoking" "former_vs_never"
        let years_to_never :=
          get_relative_risk_value "smoking" "years_to_never_equivalent"
        let reduction_factor :=
          min (rf.years_since_quit.getD 0 / years_to_never) 1.0
        some (1.0 + (max_reduction - 1.0) * (1 - reduction_factor))
      else some 1.0
  bp_rr :=
    match rf.systolic_bp with
    | none => none
    | some sbp =>
      let sbp_diff := max 0 (sbp - 120)
      let sbp_rr :=
        (get_relative_risk_value "blood_pressure" "per_20mmhg_sbp") ^
          (sbp_diff / 20)
      if rf.bp_treated.getD false then
        some (sbp_rr * get_relative_risk_value "blood_pressure" "treatment_reduction")
      else some sbp_rr
  bmi_rr :=
    match rf.bmi with
    | none => none
    | some bmi =>
      some ((get_relative_risk_value "bmi" "per_5_units") ^ (|bmi - 22| / 5))
  fitness_rr :=
    match rf.fitness_level with
    | none => none
    | some fitness =>
      if fitness = "sedentary" then
        some (get_relative_risk_value "fitness" "sedentary_vs_active")
      else if fitness = "moderate" then some 1.0
      else if fitness = "high" then
        some (1.0 / (get_relative_risk_value "fitness" "sedentary_vs_active") ^
          ((1 : ℝ) / 2))
      else some 1.0
  alcohol_rr :=
    match rf.alcohol_pattern with
    | none => none
    | some alcohol =>
      if alcohol = "none" then some 1.0
      else if alcohol = "moderate" then
        some (get_relative_risk_value "alcohol" "moderate_vs_none")
      else if alcohol = "heavy" then
        some (get_relative_risk_value "alcohol" "heavy_vs_none")
      else if alcohol = "binge" then
        some (get_relative_risk_value "alcohol" "binge_vs_none")
      else some 1.0

/-- The loop body of `calculate_adjusted_risk` that builds `cause_rr` for one
cause: start at 1.0 and multiply in each adjustment that is present and whose
cause condition holds, in source order (smoking, bp, bmi, fitness, alcohol). -/
def cause_rr_for (adj : Adjustments) (cause : String) : ℝ :=
  let r : ℝ := 1.0
  let r := match adj.smoking_rr with | some v => r * v | none => r
  let r := if cause = "heart_disease" ∨ cause = "stroke" then
             match adj.bp_rr with | some v => r * v | none => r
           else r
  let r := if cause = "heart_disease" ∨ cause = "stroke" ∨ cause = "diabetes" then
             match adj.bmi_rr with | some v => r * v | none => r
           else r
  let r := match adj.fitness_rr with | some v => r * v | none => r
  let r := if cause = "heart_disease" ∨ cause = "stroke" then
             match adj.alcohol_rr with | some v => r * v | none => r
           else r
  r

/-- The dict returned by `calculate_adjusted_risk`. -/
structure AdjustedRisk where
  baseline_risk : ℝ
  adjusted_total_risk : ℝ
  cause_risks : CauseRisks
  risk_adjustments : Adjustments
  time_horizon : String

/-- `MortalityModels.calculate_adjusted_risk`: baseline lookup, cause
allocation, per-cause multiplicative adjustment, and the running total
(addition order over the fixed cause keys; real addition commutes). -/
noncomputable def calculate_adjusted_risk (ssa_data : List LifeRow)
    (cdc_data : Option (List CdcRow)) (age : ℤ) (sex : String)
    (rf : RiskFactors) (time_horizon : String) : Option AdjustedRisk :=
  (calculate_baseline_mortality ssa_data age sex time_horizon).bind
    fun baseline_risk =>
  (allocate_cause_risks cdc_data age baseline_risk).bind
    fun cr =>
      let adj := calculate_risk_adjustments rf
      let hd := cr.heart_disease * cause_rr_for adj "heart_disease"
      let ca := cr.cancer * cause_rr_for adj "cancer"
      let ac := cr.accidents * cause_rr_for adj "accidents"
      let st := cr.stroke * cause_rr_for adj "stroke"
      let di := cr.diabetes * cause_rr_for adj "diabetes"
      let ot := cr.other * cause_rr_for adj "other"
      some { baseline_risk := baseline_risk
             adjusted_total_risk := hd + ca + ac + st + di + ot
             cause_risks := ⟨hd, ca, ac, st, di, ot⟩
             risk_adjustments := adj
             time_horizon := time_horizon }

/-! ## Intervention model (`mortality_calculator.py`) -/

/-- The intervention-effect constants assembled by
`MortalityCalculator._load_intervention_effects` from the relative-risk
database. -/
noncomputable def interventionEffects_quit_smoking_immediate : ℝ :=
  get_relative_risk_value "interventions" "quit_smoking"

noncomputable def interventionEffects_reduce_bp_per10 : ℝ :=
  get_relative_risk_value "interventions" "reduce_bp_10mmhg"

noncomputable def interventionEffects_fitness_per_met : ℝ :=
  get_relative_risk_value "interventions" "improve_fitness"

noncomputable def interventionEffects_sedentary_to_moderate : ℝ :=
  1.0 / get_relative_risk_value "fitness" "sedentary_vs_active"

noncomputable def interventionEffects_lose_weight_per5 : ℝ :=
  get_relative_risk_value "interventions" "lose_weight_5bmi"

noncomputable def interventionEffects_heavy_to_moderate : ℝ :=
  get_relative_risk_value "alcohol" "moderate_vs_none"

noncomputable def interventionEffects_moderate_to_none : ℝ := 1.0

/-- The interventions dict passed to `model_interventions`; a `none` field is
an absent key (keys outside these five always hit the not-applicable branch
and are behaviorally inert, so they are not represented). -/
structure Interventions where
  quit_smoking : Option Bool := none
  reduce_bp : Option ℝ := none
  improve_fitness : Option String := none
  lose_weight : Option ℝ := none
  reduce_alcohol : Option String := none

/-- One per-intervention record of `model_interventions` (the `source` string
is metadata and omitted). -/
structure InterventionRecord where
  applicable : Bool
  risk_reduction : ℝ
  relative_effect : ℝ

/-- The not-applicable record of the final `else` branch. -/
def notApplicableRecord : InterventionRecord :=
  ⟨false, 0, 1.0⟩

/-- The loop body of `model_interventions` for the `quit_smoking` key. -/
noncomputable def quitSmokingRecord (current_risk : ℝ) (value : Bool) :
    InterventionRecord :=
  if value then
    ⟨true, current_risk * (1 - interventionEffects_quit_smoking_immediate),
     interventionEffects_quit_smoking_immediate⟩
  else notApplicableRecord

/-- The loop body for `reduce_bp` (an mmHg amount; applicable when > 0). -/
noncomputable def reduceBpRecord (current_risk : ℝ) (value : ℝ) :
    InterventionRecord :=
  if value > 0 then
    let reduction_factor := interventionEffects_reduce_bp_per10 ^ (value / 10)
    ⟨true, current_risk * (1 - reduction_factor), reduction_factor⟩
  else notApplicableRecord

/-- The loop body for `improve_fitness` (target level string). -/
noncomputable def improveFitnessRecord (current_risk : ℝ) (value : String) :
    InterventionRecord :=
  if value = "moderate" then
    ⟨true, current_risk * (1 - interventionEffects_sedentary_to_moderate),
     interventionEffects_sedentary_to_moderate⟩
  else if value = "high" then
    ⟨true, current_risk * (1 - interventionEffects_fitness_per_met),
     interventionEffects_fitness_per_met⟩
  else notApplicableRecord

/-- The loop body for `lose_weight` (BMI units; applicable when > 0). -/
noncomputable def loseWeightRecord (current_risk : ℝ) (value : ℝ) :
    InterventionRecord :=
  if value > 0 then
    let reduction_factor := interventionEffects_lose_weight_per5 ^ (value / 5)
    ⟨true, current_risk * (1 - reduction_factor), reduction_factor⟩
  else notApplicableRecord

/-- The loop body for `reduce_alcohol` (target pattern string). -/
noncomputable def reduceAlcoholRecord (current_risk : ℝ) (value : String) :
    InterventionRecord :=
  if value = "moderate" then
    ⟨true, current_risk * (1 - interventionEffects_heavy_to_moderate),
     interventionEffects_heavy_to_moderate⟩
  else if value = "none" then
    ⟨true, current_risk * (1 - interventionEffects_moderate_to_none),
     interventionEffects_moderate_to_none⟩
  else notApplicableRecord

/-- The combined entry plus the per-intervention records returned by
`model_interventions`. -/
structure InterventionOutput where
  quit_smoking : Option InterventionRecord
  reduce_bp : Option InterventionRecord
  improve_fitness : Option InterventionRecord
  lose_weight : Option InterventionRecord
  reduce_alcohol : Option InterventionRecord
  new_risk : ℝ
  absolute_reduction : ℝ
  relative_reduction : ℝ
  total_risk_reduction : ℝ

/-- `MortalityCalculator.model_interventions`: build one record per present
key, then fold over the present records, multiplying the relative effects and
summing the risk reductions of the applicable ones (multiplication commutes,
so the dict iteration order is irrelevant). -/
noncomputable def model_interventions (current_risk : ℝ) (iv : Interventions) :
    InterventionOutput :=
  let e1 := iv.quit_smoking.map (quitSmokingRecord current_risk)
  let e2 := iv.reduce_bp.map (reduceBpRecord current_risk)
  let e3 := iv.improve_fitness.map (improveFitnessRecord current_risk)
  let e4 := iv.lose_weight.map (loseWeightRecord current_risk)
  let e5 := iv.reduce_alcohol.map (reduceAlcoholRecord current_risk)
  let records := [e1, e2, e3, e4, e5].filterMap id
  let combined_reduction := records.foldl
    (fun acc r => if r.applicable then acc * r.relative_effect else acc) 1.0
  let total_risk_reduction := records.foldl
    (fun acc r => if r.applicable then acc + r.risk_reduction else acc) 0
  let new_risk := current_risk * combined_reduction
  { quit_smoking := e1, reduce_bp := e2, improve_fitness := e3
    lose_weight := e4, reduce_alcohol := e5
    new_risk := new_risk
    absolute_reduction := current_risk - new_risk
    relative_reduction := combined_reduction
    total_risk_reduction := total_risk_reduction }

/-! ## Life expectancy (`mortality_api.py`) -/

/-- Modelled from the spec: `MortalityModels.calculate_life_expectancy` is
invoked by `_calculate_life_expectancy` in `mortality_api.py` but is not
defined anywhere under the source tree; per spec §4.7 it computes the baseline
life expectancy for (age, sex) from the SSA reference tables, with no formula
given, so it is abstracted as an arbitrary partial lookup (`none` embeds a
reference-data failure / raised exception). -/
def BaselineLifeExpectancy : Type := ℤ → String → Option ℝ

/-- `_calculate_life_expectancy` of `mortality_api.py`: baseline life
expectancy divided by the risk multiplier `adjusted_risk / baseline_risk`
(multiplier 1.0 when the baseline 1-year risk is not positive), floored at
1 year; any failure in the try-block falls back to the crude linear heuristic
`85 − age` (male) / `88 − age` (otherwise), floored at 1.  The failures are:
the baseline-expectancy lookup, the life-table lookup, and — because
`baseline_ex / risk_multiplier` is float division — a `ZeroDivisionError`
when the multiplier is zero (a zero `adjusted_risk` over a positive
baseline risk). -/
noncomputable def api_calculate_life_expectancy (calcLE : BaselineLifeExpectancy)
    (ssa_data : List LifeRow) (age : ℤ) (sex : String)
    (adjusted_risk : ℝ) : ℝ :=
  match calcLE age sex, calculate_baseline_mortality ssa_data age sex "1_year" with
  | some baseline_ex, some baseline_risk =>
    let risk_multiplier :=
      if baseline_risk > 0 then adjusted_risk / baseline_risk else 1.0
    if risk_multiplier = 0 then
      max (if sex = "male" then (85 : ℝ) - age else (88 : ℝ) - age) 1.0
    else max (baseline_ex / risk_multiplier) 1.0
  | _, _ =>
    max (if sex = "male" then (85 : ℝ) - age else (88 : ℝ) - age) 1.0

/-! ## Pooled Cohort Equations (`pce_real_coefficients.py`) -/

/-- One race-sex coefficient set of `RealPCECalculator.coefficients`; a key
that only some groups carry is an `Option` field (`none` = key absent, which
the source tests with `in coeff` and which must contribute zero, never a
substituted default). -/
structure PCECoeff where
  ln_age : ℝ
  ln_age_squared : Option ℝ := none
  ln_total_chol : ℝ
  ln_age_x_ln_total_chol : Option ℝ := none
  ln_hdl : ℝ
  ln_age_x_ln_hdl : Option ℝ := none
  ln_sbp_treated : Option ℝ := none
  ln_age_x_ln_sbp_treated : Option ℝ := none
  ln_sbp_untreated : ℝ
  ln_age_x_ln_sbp_untreated : Option ℝ := none
  smoker : ℝ
  ln_age_x_smoker : Option ℝ := none
  diabetes : ℝ
  mean_coefficient_sum : ℝ
  baseline_survival : ℝ

/-- The `white_male` coefficient set (Goff et al. 2013, Table A). -/
def pce_white_male : PCECoeff where
  ln_age := 12.344
  ln_total_chol := 11.853
  ln_age_x_ln_total_chol := some (-2.664)
  ln_hdl := -7.990
  ln_age_x_ln_hdl := some 1.769
  ln_sbp_treated := some 1.797
  ln_sbp_untreated := 1.764
  smoker := 7.837
  ln_age_x_smoker := some (-1.795)
  diabetes := 0.658
  mean_coefficient_sum := 61.18
  baseline_survival := 0.9144

/-- The `white_female` coefficient set. -/
def pce_white_female : PCECoeff where
  ln_age := -29.799
  ln_age_squared := some 4.884
  ln_total_chol := 13.540
  ln_age_x_ln_total_chol := some (-3.114)
  ln_hdl := -13.578
  ln_age_x_ln_hdl := some 3.149
  ln_sbp_treated := some 2.019
  ln_sbp_untreated := 1.957
  smoker := 7.574
  ln_age_x_smoker := some (-1.665)
  diabetes := 0.661
  mean_coefficient_sum := -29.18
  baseline_survival := 0.9665

/-- The `black_male` coefficient set. -/
def pce_black_male : PCECoeff where
  ln_age := 2.469
  ln_total_chol := 0.302
  ln_hdl := -0.307
  ln_sbp_treated := some 1.916
  ln_sbp_untreated := 1.809
  smoker := 0.549
  diabetes := 0.645
  mean_coefficient_sum := 19.54
  baseline_survival := 0.8954

/-- The `black_female` coefficient set. -/
def pce_black_female : PCECoeff where
  ln_age := 17.114
  ln_total_chol := 0.940
  ln_hdl := -18.920
  ln_age_x_ln_hdl := some 4.475
  ln_sbp_treated := some 29.291
  ln_age_x_ln_sbp_treated := some (-6.432)
  ln_sbp_untreated := 27.820
  ln_age_x_ln_sbp_untreated := some (-6.087)
  smoker := 0.691
  diabetes := 0.874
  mean_coefficient_sum := 86.61
  baseline_survival := 0.9533

/-- The `self.coefficients` dict, keyed by the joined `race_sex` string. -/
def pceCoefficients (coeff_key : String) : Option PCECoeff :=
  if coeff_key = "white_male" then some pce_white_male
  else if coeff_key = "white_female" then some pce_white_female
  else if coeff_key = "black_male" then some pce_black_male
  else if coeff_key = "black_female" then some pce_black_female
  else none

/-- The race-to-coefficient-group resolution of `calculate_10_year_risk`:
lower-case the race, default unsupported races to `white`, and map
`african_american` to `black`. -/
def pceRaceKey (race : String) : String :=
  let race_key0 := race.toLower
  let race_key1 :=
    if ¬(race_key0 = "white" ∨ race_key0 = "black" ∨
         race_key0 = "african_american") then "white" else race_key0
  if race_key1 = "african_american" then "black" else race_key1

/-- The result dict of `calculate_10_year_risk`; `none` fields embed keys
that are `None` or absent in the returned dict (the two error records carry
no `risk_level` and the unsupported-combination record no `age_range_valid`). -/
structure PCEOutput where
  error : Option String
  risk_10_year : Option ℝ
  risk_5_year : Option ℝ
  risk_1_year : Option ℝ
  risk_level : Option String
  population : String
  age_range_valid : Option Bool

/-- The sparse linear predictor (`sum_of_products`) accumulation of
`calculate_10_year_risk`, with absent terms contributing zero. -/
noncomputable def pceSumOfProducts (c : PCECoeff) (ln_age ln_total_chol ln_hdl
    ln_sbp : ℝ) (bp_treated smoker diabetes : Bool) : ℝ :=
  let s := c.ln_age * ln_age
  let s := s + (match c.ln_age_squared with
    | some v => v * ln_age ^ 2
    | none => 0)
  let s := s + c.ln_total_chol * ln_total_chol
  let s := s + c.ln_hdl * ln_hdl
  let s := s + (match c.ln_age_x_ln_total_chol with
    | some v => v * ln_age * ln_total_chol
    | none => 0)
  let s := s + (match c.ln_age_x_ln_hdl with
    | some v => v * ln_age * ln_hdl
    | none => 0)
  let s := s + (match bp_treated, c.ln_sbp_treated with
    | true, some vt =>
      vt * ln_sbp + (match c.ln_age_x_ln_sbp_treated with
        | some v => v * ln_age * ln_sbp
        | none => 0)
    | _, _ =>
      c.ln_sbp_untreated * ln_sbp + (match c.ln_age_x_ln_sbp_untreated with
        | some v => v * ln_age * ln_sbp
        | none => 0))
  let s := s + c.smoker * (if smoker then 1 else 0)
  let s := s + (match c.ln_age_x_smoker with
    | some v => v * ln_age * (if smoker then 1 else 0)
    | none => 0)
  let s := s + c.diabetes * (if diabetes then 1 else 0)
  s

/-- `RealPCECalculator.calculate_10_year_risk`.  Age gate first; then race
defaulting (`.lower()`, unsupported races → `white`, `african_american` →
`black`); then the coefficient-set lookup (an error record when the joined
key is unsupported); then the Cox-style risk formula with the 5-year and
1-year values as fixed fractions of the 10-year value. -/
noncomputable def calculate_10_year_risk (age : ℤ) (sex race : String)
    (total_chol hdl_chol systolic_bp : ℝ) (bp_treated smoker diabetes : Bool) :
    PCEOutput :=
  if age < 40 ∨ age > 79 then
    { error := some "PCE is validated for ages 40-79. Cannot calculate for this age."
      risk_10_year := none, risk_5_year := none, risk_1_year := none
      risk_level := none
      population := race ++ "_" ++ sex
      age_range_valid := some false }
  else
    let race_key := pceRaceKey race
    let sex_key := sex.toLower
    let coeff_key := race_key ++ "_" ++ sex_key
    match pceCoefficients coeff_key with
    | none =>
      { error := some ("Unsupported combination: " ++ race_key ++ " " ++ sex_key)
        risk_10_year := none, risk_5_year := none, risk_1_year := none
        risk_level := none
        population := coeff_key
        age_range_valid := none }
    | some coeff =>
      let sum_of_products := pceSumOfProducts coeff (Real.log age)
        (Real.log total_chol) (Real.log hdl_chol) (Real.log systolic_bp)
        bp_treated smoker diabetes
      let risk_10_year := 1 - coeff.baseline_survival ^
        Real.exp (sum_of_products - coeff.mean_coefficient_sum)
      let risk_level :=
        if risk_10_year < 0.075 then "Low"
        else if risk_10_year < 0.20 then "Borderline"
        else if risk_10_year < 0.20 then "Intermediate"
        else "High"
      { error := none
        risk_10_year := some risk_10_year
        risk_5_year := some (risk_10_year * 0.6)
        risk_1_year := some (risk_10_year * 0.1)
        risk_level := some risk_level
        population := coeff_key
        age_range_valid := some true }

/-- `RealPCECalculator.calculate_from_risk_factors`: pull labs out of the
risk-factor dict with the source defaults; any smoking status other than
`"never"` is passed on as a current smoker. -/
noncomputable def calculate_from_risk_factors (rf : RiskFactors) (age : ℤ)
    (sex race : String) : PCEOutput :=
  calculate_10_year_risk age sex race
    (rf.total_cholesterol.getD 200)
    (rf.hdl_cholesterol.getD 50)
    (rf.systolic_bp.getD 120)
    (rf.bp_treated.getD false)
    (rf.smoking_status.getD "never" ≠ "never")
    (rf.diabetes.getD false)

/-! ## AHA PREVENT equations (`prevent_equations.py`)

The inputs, transformed predictors and log-odds are plain field arithmetic
over float values, embedded as `ℚ` (keeping the branching structure
decidable); only the final logistic transform needs `ℝ`. -/

/-- `_mmol_conversion`: mg/dL to mmol/L. -/
def mmol_conversion (cholesterol_mg_dl : ℚ) : ℚ :=
  0.02586 * cholesterol_mg_dl

/-- `_logistic`: log-odds to probability in percent. -/
noncomputable def logistic (logor : ℝ) : ℝ :=
  100 * Real.exp logor / (1 + Real.exp logor)

/-- Python's `round(x, 3)`, embedded with Mathlib's nearest-integer `round`
(the two differ only on exact midpoints, where Python rounds half to even). -/
noncomputable def roundTo3 (x : ℝ) : ℝ :=
  ((round (x * 1000) : ℤ) : ℝ) / 1000

/-- One risk output of `prevent_base`: `round(_logistic(logor), 3)`. -/
noncomputable def preventRisk (logor : ℚ) : ℝ :=
  roundTo3 (logistic (logor : ℝ))

/-- The tuple returned by `_validate_inputs`. -/
structure ValidationResult where
  is_valid : Bool
  errors : List String
  cvd_valid : Bool
  hf_valid : Bool

/-- A float parameter is `None` or outside `[lo, hi]` (the failure conditions
`x is None or x < lo or x > hi` of `_validate_inputs`). -/
def badRange (x : Option ℚ) (lo hi : ℚ) : Bool :=
  match x with
  | none => true
  | some v => decide (v < lo) || decide (v > hi)

/-- The eGFR failure condition `egfr is None or egfr <= 0`. -/
def badEgfr (x : Option ℚ) : Bool :=
  match x with
  | none => true
  | some v => decide (v ≤ 0)

/-- The BMI failure condition `bmi is None or bmi < 18.5 or bmi >= 40`. -/
def badBmi (x : Option ℚ) : Bool :=
  match x with
  | none => true
  | some v => decide (v < 18.5) || decide (v ≥ 40)

/-- `_validate_inputs`: core checks abort validation outright; the
cholesterol/HDL/statin checks only clear `cvd_valid` and the BMI check only
clears `hf_valid`, each appending its message to the shared error list while
`is_valid` stays true. -/
def prevent_validate_inputs (sex : ℤ) (age tc hdl sbp : Option ℚ)
    (dm smoking : ℤ) (bmi egfr : Option ℚ) (bptreat statin : ℤ) :
    ValidationResult :=
  if ¬(sex = 0 ∨ sex = 1) then
    ⟨false, ["sex must be 0 (male) or 1 (female)"], false, false⟩
  else if badRange age 30 79 then
    ⟨false, ["age must be between 30-79 years"], false, false⟩
  else if badRange sbp 90 200 then
    ⟨false, ["sbp must be between 90-200 mmHg"], false, false⟩
  else if ¬(dm = 0 ∨ dm = 1) then
    ⟨false, ["dm must be 0 or 1"], false, false⟩
  else if ¬(smoking = 0 ∨ smoking = 1) then
    ⟨false, ["smoking must be 0 or 1"], false, false⟩
  else if badEgfr egfr then
    ⟨false, ["egfr must be > 0"], false, false⟩
  else if ¬(bptreat = 0 ∨ bptreat = 1) then
    ⟨false, ["bptreat must be 0 or 1"], false, false⟩
  else
    ⟨true,
     (if badRange tc 130 320 then
        ["tc must be between 130-320 mg/dL (CVD/ASCVD unavailable)"] else []) ++
     (if badRange hdl 20 100 then
        ["hdl must be between 20-100 mg/dL (CVD/ASCVD unavailable)"] else []) ++
     (if ¬(statin = 0 ∨ statin = 1) then
        ["statin must be 0 or 1 (CVD/ASCVD unavailable)"] else []) ++
     (if badBmi bmi then
        ["bmi must be between 18.5-39.9 kg/m² (HF unavailable)"] else []),
     !badRange tc 130 320 && !badRange hdl 20 100 &&
       decide (statin = 0 ∨ statin = 1),
     !badBmi bmi⟩

/-- Female 10-year CVD log-odds. -/
def logor_10yr_cvd_female (age_term non_hdl_mmol hdl_mmol sbp_low sbp_high
    dm smoking egfr_low egfr_high bptreat statin : ℚ) : ℚ :=
  -3.307728 +
    0.7939329 * age_term +
    0.0305239 * (non_hdl_mmol - 3.5) -
    0.1606857 * (hdl_mmol - 1.3) / 0.3 -
    0.2394003 * sbp_low +
    0.360078 * sbp_high +
    0.8667604 * dm +
    0.5360739 * smoking +
    0.6045917 * egfr_low +
    0.0433769 * egfr_high +
    0.3151672 * bptreat -
    0.1477655 * statin -
    0.0663612 * bptreat * sbp_high +
    0.1197879 * statin * (non_hdl_mmol - 3.5) -
    0.0819715 * age_term * (non_hdl_mmol - 3.5) +
    0.0306769 * age_term * (hdl_mmol - 1.3) / 0.3 -
    0.0946348 * age_term * sbp_high -
    0.27057 * age_term * dm -
    0.078715 * age_term * smoking -
    0.1637806 * age_term * egfr_low

/-- Female 30-year CVD log-odds. -/
def logor_30yr_cvd_female (age_term non_hdl_mmol hdl_mmol sbp_low sbp_high
    dm smoking egfr_low egfr_high bptreat statin : ℚ) : ℚ :=
  -1.318827 +
    0.5503079 * age_term -
    0.0928369 * (age_term ^ 2) +
    0.0409794 * (non_hdl_mmol - 3.5) -
    0.1663306 * (hdl_mmol - 1.3) / 0.3 -
    0.1628654 * sbp_low +
    0.3299505 * sbp_high +
    0.6793894 * dm +
    0.3196112 * smoking +
    0.1857101 * egfr_low +
    0.0553528 * egfr_high +
    0.2894 * bptreat -
    0.075688 * statin -
    0.056367 * bptreat * sbp_high +
    0.1071019 * statin * (non_hdl_mmol - 3.5) -
    0.0751438 * age_term * (non_hdl_mmol - 3.5) +
    0.0301786 * age_term * (hdl_mmol - 1.3) / 0.3 -
    0.0998776 * age_term * sbp_high -
    0.3206166 * age_term * dm -
    0.1607862 * age_term * smoking -
    0.1450788 * age_term * egfr_low

/-- Female 10-year ASCVD log-odds. -/
def logor_10yr_ascvd_female (age_term non_hdl_mmol hdl_mmol sbp_low sbp_high
    dm smoking egfr_low egfr_high bptreat statin : ℚ) : ℚ :=
  -3.819975 +
    0.719883 * age_term +
    0.1176967 * (non_hdl_mmol - 3.5) -
    0.151185 * (hdl_mmol - 1.3) / 0.3 -
    0.0835358 * sbp_low +
    0.3592852 * sbp_high +
    0.8348585 * dm +
    0.4831078 * smoking +
    0.4864619 * egfr_low +
    0.0397779 * egfr_high +
    0.2265309 * bptreat -
    0.0592374 * statin -
    0.0395762 * bptreat * sbp_high +
    0.0844423 * statin * (non_hdl_mmol - 3.5) -
    0.0567839 * age_term * (non_hdl_mmol - 3.5) +
    0.0325692 * age_term * (hdl_mmol - 1.3) / 0.3 -
    0.1035985 * age_term * sbp_high -
    0.2417542 * age_term * dm -
    0.0791142 * age_term * smoking -
    0.1671492 * age_term * egfr_low

/-- Female 30-year ASCVD log-odds. -/
def logor_30yr_ascvd_female (age_term non_hdl_mmol hdl_mmol sbp_low sbp_high
    dm smoking egfr_low egfr_high bptreat statin : ℚ) : ℚ :=
  -1.974074 +
    0.4669202 * age_term -
    0.0893118 * (age_term ^ 2) +
    0.1256901 * (non_hdl_mmol - 3.5) -
    0.1542255 * (hdl_mmol - 1.3) / 0.3 -
    0.0018093 * sbp_low +
    0.322949 * sbp_high +
    0.6296707 * dm +
    0.268292 * smoking +
    0.100106 * egfr_low +
    0.0499663 * egfr_high +
    0.1875292 * bptreat +
    0.0152476 * statin -
    0.0276123 * bptreat * sbp_high +
    0.0736147 * statin * (non_hdl_mmol - 3.5) -
    0.0521962 * age_term * (non_hdl_mmol - 3.5) +
    0.0316918 * age_term * (hdl_mmol - 1.3) / 0.3 -
    0.1046101 * age_term * sbp_high -
    0.2727793 * age_term * dm -
    0.1530907 * age_term * smoking -
    0.1299149 * age_term * egfr_low

/-- Male 10-year CVD log-odds. -/
def logor_10yr_cvd_male (age_term non_hdl_mmol hdl_mmol sbp_low sbp_high
    dm smoking egfr_low egfr_high bptreat statin : ℚ) : ℚ :=
  -3.031168 +
    0.7688528 * age_term +
    0.0736174 * (non_hdl_mmol - 3.5) -
    0.0954431 * (hdl_mmol - 1.3) / 0.3 -
    0.4347345 * sbp_low +
    0.3362658 * sbp_high +
    0.7692857 * dm +
    0.4386871 * smoking +
    0.5378979 * egfr_low +
    0.0164827 * egfr_high +
    0.288879 * bptreat -
    0.1337349 * statin -
    0.0475924 * bptreat * sbp_high +
    0.150273 * statin * (non_hdl_mmol - 3.5) -
    0.0517874 * age_term * (non_hdl_mmol - 3.5) +
    0.0191169 * age_term * (hdl_mmol - 1.3) / 0.3 -
    0.1049477 * age_term * sbp_high -
    0.2251948 * age_term * dm -
    0.0895067 * age_term * smoking -
    0.1543702 * age_term * egfr_low

/-- Male 30-year CVD log-odds. -/
def logor_30yr_cvd_male (age_term non_hdl_mmol hdl_mmol sbp_low sbp_high
    dm smoking egfr_low egfr_high bptreat statin : ℚ) : ℚ :=
  -1.148204 +
    0.4627309 * age_term -
    0.0984281 * (age_term ^ 2) +
    0.0836088 * (non_hdl_mmol - 3.5) -
    0.1029824 * (hdl_mmol - 1.3) / 0.3 -
    0.2140352 * sbp_low +
    0.2904325 * sbp_high +
    0.5331276 * dm +
    0.2141914 * smoking +
    0.1155556 * egfr_low +
    0.0603775 * egfr_high +
    0.232714 * bptreat -
    0.0272112 * statin -
    0.0384488 * bptreat * sbp_high +
    0.134192 * statin * (non_hdl_mmol - 3.5) -
    0.0511759 * age_term * (non_hdl_mmol - 3.5) +
    0.0165865 * age_term * (hdl_mmol - 1.3) / 0.3 -
    0.1101437 * age_term * sbp_high -
    0.2585943 * age_term * dm -
    0.1566406 * age_term * smoking -
    0.1166776 * age_term * egfr_low

/-- Male 10-year ASCVD log-odds. -/
def logor_10yr_ascvd_male (age_term non_hdl_mmol hdl_mmol sbp_low sbp_high
    dm smoking egfr_low egfr_high bptreat statin : ℚ) : ℚ :=
  -3.500655 +
    0.7099847 * age_term +
    0.1658663 * (non_hdl_mmol - 3.5) -
    0.1144285 * (hdl_mmol - 1.3) / 0.3 -
    0.2837212 * sbp_low +
    0.3239977 * sbp_high +
    0.7189597 * dm +
    0.3956973 * smoking +
    0.3690075 * egfr_low +
    0.0203619 * egfr_high +
    0.2036522 * bptreat -
    0.0865581 * statin -
    0.0322916 * bptreat * sbp_high +
    0.114563 * statin * (non_hdl_mmol - 3.5) -
    0.0300005 * age_term * (non_hdl_mmol - 3.5) +
    0.0232747 * age_term * (hdl_mmol - 1.3) / 0.3 -
    0.0927024 * age_term * sbp_high -
    0.2018525 * age_term * dm -
    0.0970527 * age_term * smoking -
    0.1217081 * age_term * egfr_low

/-- Male 30-year ASCVD log-odds. -/
def logor_30yr_ascvd_male (age_term non_hdl_mmol hdl_mmol sbp_low sbp_high
    dm smoking egfr_low egfr_high bptreat statin : ℚ) : ℚ :=
  -1.736444 +
    0.3994099 * age_term -
    0.0937484 * (age_term ^ 2) +
    0.1744643 * (non_hdl_mmol - 3.5) -
    0.120203 * (hdl_mmol - 1.3) / 0.3 -
    0.0665117 * sbp_low +
    0.2753037 * sbp_high +
    0.4790257 * dm +
    0.1782635 * smoking -
    0.0218789 * egfr_low +
    0.0602553 * egfr_high +
    0.1421182 * bptreat +
    0.0135996 * statin -
    0.0218265 * bptreat * sbp_high +
    0.1013148 * statin * (non_hdl_mmol - 3.5) -
    0.0312619 * age_term * (non_hdl_mmol - 3.5) +
    0.020673 * age_term * (hdl_mmol - 1.3) / 0.3 -
    0.0920935 * age_term * sbp_high -
    0.2159947 * age_term * dm -
    0.1548811 * age_term * smoking -
    0.0712547 * age_term * egfr_low

/-- Female 10-year heart-failure log-odds. -/
def logor_10yr_hf_female (age_term sbp_low sbp_high dm smoking bmi_low
    bmi_high egfr_low egfr_high bptreat : ℚ) : ℚ :=
  -4.310409 +
    0.8998235 * age_term -
    0.4559771 * sbp_low +
    0.3576505 * sbp_high +
    1.038346 * dm +
    0.583916 * smoking -
    0.0072294 * bmi_low +
    0.2997706 * bmi_high +
    0.7451638 * egfr_low +
    0.0557087 * egfr_high +
    0.3534442 * bptreat -
    0.0981511 * bptreat * sbp_high -
    0.0946663 * age_term * sbp_high -
    0.3581041 * age_term * dm -
    0.1159453 * age_term * smoking -
    0.003878 * age_term * bmi_high -
    0.1884289 * age_term * egfr_low

/-- Female 30-year heart-failure log-odds. -/
def logor_30yr_hf_female (age_term sbp_low sbp_high dm smoking bmi_low
    bmi_high egfr_low egfr_high bptreat : ℚ) : ℚ :=
  -2.205379 +
    0.6254374 * age_term -
    0.0983038 * (age_term ^ 2) -
    0.3919241 * sbp_low +
    0.3142295 * sbp_high +
    0.8330787 * dm +
    0.3438651 * smoking +
    0.0594874 * bmi_low +
    0.2525536 * bmi_high +
    0.2981642 * egfr_low +
    0.0667159 * egfr_high +
    0.333921 * bptreat -
    0.0893177 * bptreat * sbp_high -
    0.0974299 * age_term * sbp_high -
    0.404855 * age_term * dm -
    0.1982991 * age_term * smoking -
    0.0035619 * age_term * bmi_high -
    0.1564215 * age_term * egfr_low

/-- Male 10-year heart-failure log-odds. -/
def logor_10yr_hf_male (age_term sbp_low sbp_high dm smoking bmi_low
    bmi_high egfr_low egfr_high bptreat : ℚ) : ℚ :=
  -3.946391 +
    0.8972642 * age_term -
    0.6811466 * sbp_low +
    0.3634461 * sbp_high +
    0.923776 * dm +
    0.5023736 * smoking -
    0.0485841 * bmi_low +
    0.3726929 * bmi_high +
    0.6926917 * egfr_low +
    0.0251827 * egfr_high +
    0.2980922 * bptreat -
    0.0497731 * bptreat * sbp_high -
    0.1289201 * age_term * sbp_high -
    0.3040924 * age_term * dm -
    0.1401688 * age_term * smoking +
    0.0068126 * age_term * bmi_high -
    0.1797778 * age_term * egfr_low

/-- Male 30-year heart-failure log-odds. -/
def logor_30yr_hf_male (age_term sbp_low sbp_high dm smoking bmi_low
    bmi_high egfr_low egfr_high bptreat : ℚ) : ℚ :=
  -1.95751 +
    0.5681541 * age_term -
    0.1048388 * (age_term ^ 2) -
    0.4761564 * sbp_low +
    0.30324 * sbp_high +
    0.6840338 * dm +
    0.2656273 * smoking +
    0.0833107 * bmi_low +
    0.26999 * bmi_high +
    0.2541805 * egfr_low +
    0.0638923 * egfr_high +
    0.2583631 * bptreat -
    0.0391938 * bptreat * sbp_high -
    0.1269124 * age_term * sbp_high -
    0.3273572 * age_term * dm -
    0.2043019 * age_term * smoking -
    0.0182831 * age_term * bmi_high -
    0.1342618 * age_term * egfr_low

/-- `PREVENTResult` (the `to_dict` field set, `model` string included). -/
structure PREVENTResult where
  risk_10yr_cvd : Option ℝ
  risk_10yr_ascvd : Option ℝ
  risk_10yr_hf : Option ℝ
  risk_30yr_cvd : Option ℝ
  risk_30yr_ascvd : Option ℝ
  risk_30yr_hf : Option ℝ
  model : String
  valid : Bool
  errors : List String

/-- `prevent_base`: validate; on core failure return an invalid result whose
errors are the validation messages.  Past the core checks the source
unconditionally computes `_mmol_conversion(tc - hdl)` and
`_mmol_conversion(hdl)`, so a missing (`None`) total cholesterol or HDL —
which core validation lets through, merely clearing `cvd_valid` — raises
`TypeError` and the call returns nothing (embedded as `none`).  With both
present, compute the transformed predictors, fill the CVD/ASCVD fields when
`cvd_valid` and the HF fields when `hf_valid`, and finally suppress the
three 30-year fields (appending a note) when age exceeds 59.  The remaining
`.getD 0` unwrappings are justified by validation: a `None` `age`, `sbp` or
`egfr` aborts validation before this point; `bmi` keeps the source's
truthiness test. -/
noncomputable def prevent_base (sex : ℤ) (age tc hdl sbp : Option ℚ)
    (dm smoking : ℤ) (bmi egfr : Option ℚ) (bptreat statin : ℤ) :
    Option PREVENTResult :=
  let v := prevent_validate_inputs sex age tc hdl sbp dm smoking bmi egfr
    bptreat statin
  if v.is_valid = false then
    some { risk_10yr_cvd := none, risk_10yr_ascvd := none, risk_10yr_hf := none
           risk_30yr_cvd := none, risk_30yr_ascvd := none, risk_30yr_hf := none
           model := "base", valid := false, errors := v.errors }
  else
    match tc, hdl with
    | some tcv, some hdlv =>
    let a := age.getD 0
    let non_hdl_mmol := mmol_conversion (tcv - hdlv)
    let hdl_mmol := mmol_conversion hdlv
    let age_term := (a - 55) / 10
    let sbp_low := (min (sbp.getD 0) 110 - 110) / 20
    let sbp_high := (max (sbp.getD 0) 110 - 130) / 20
    let egfr_low := (min (egfr.getD 0) 60 - 60) / (-15)
    let egfr_high := (max (egfr.getD 0) 60 - 90) / (-15)
    let bmi_low := match bmi with
      | some b => if b = 0 then 0 else (min b 30 - 25) / 5
      | none => 0
    let bmi_high := match bmi with
      | some b => if b = 0 then 0 else (max b 30 - 30) / 5
      | none => 0
    let dmq : ℚ := dm
    let smokingq : ℚ := smoking
    let bptreatq : ℚ := bptreat
    let statinq : ℚ := statin
    let r10cvd := if sex = 1 then
        logor_10yr_cvd_female age_term non_hdl_mmol hdl_mmol sbp_low sbp_high
          dmq smokingq egfr_low egfr_high bptreatq statinq
      else
        logor_10yr_cvd_male age_term non_hdl_mmol hdl_mmol sbp_low sbp_high
          dmq smokingq egfr_low egfr_high bptreatq statinq
    let r30cvd := if sex = 1 then
        logor_30yr_cvd_female age_term non_hdl_mmol hdl_mmol sbp_low sbp_high
          dmq smokingq egfr_low egfr_high bptreatq statinq
      else
        logor_30yr_cvd_male age_term non_hdl_mmol hdl_mmol sbp_low sbp_high
          dmq smokingq egfr_low egfr_high bptreatq statinq
    let r10ascvd := if sex = 1 then
        logor_10yr_ascvd_female age_term non_hdl_mmol hdl_mmol sbp_low sbp_high
          dmq smokingq egfr_low egfr_high bptreatq statinq
      else
        logor_10yr_ascvd_male age_term non_hdl_mmol hdl_mmol sbp_low sbp_high
          dmq smokingq egfr_low egfr_high bptreatq statinq
    let r30ascvd := if sex = 1 then
        logor_30yr_ascvd_female age_term non_hdl_mmol hdl_mmol sbp_low sbp_high
          dmq smokingq egfr_low egfr_high bptreatq statinq
      else
        logor_30yr_ascvd_male age_term non_hdl_mmol hdl_mmol sbp_low sbp_high
          dmq smokingq egfr_low egfr_high bptreatq statinq
    let r10hf := if sex = 1 then
        logor_10yr_hf_female age_term sbp_low sbp_high dmq smokingq bmi_low
          bmi_high egfr_low egfr_high bptreatq
      else
        logor_10yr_hf_male age_term sbp_low sbp_high dmq smokingq bmi_low
          bmi_high egfr_low egfr_high bptreatq
    let r30hf := if sex = 1 then
        logor_30yr_hf_female age_term sbp_low sbp_high dmq smokingq bmi_low
          bmi_high egfr_low egfr_high bptreatq
      else
        logor_30yr_hf_male age_term sbp_low sbp_high dmq smokingq bmi_low
          bmi_high egfr_low egfr_high bptreatq
    let base : PREVENTResult :=
      { risk_10yr_cvd := if v.cvd_valid then some (preventRisk r10cvd) else none
        risk_10yr_ascvd := if v.cvd_valid then some (preventRisk r10ascvd) else none
        risk_10yr_hf := if v.hf_valid then some (preventRisk r10hf) else none
        risk_30yr_cvd := if v.cvd_valid then some (preventRisk r30cvd) else none
        risk_30yr_ascvd := if v.cvd_valid then some (preventRisk r30ascvd) else none
        risk_30yr_hf := if v.hf_valid then some (preventRisk r30hf) else none
        model := "base", valid := true, errors := v.errors }
    if a > 59 then
      some { base with
             risk_30yr_cvd := none, risk_30yr_ascvd := none
             risk_30yr_hf := none
             errors := base.errors ++
               (if a ≤ 79 then ["30-year risks unavailable for age > 59"]
                else []) }
    else some base
    | _, _ => none

/-- The empty risk-factor dict. -/
def rf_empty : RiskFactors := {}

/-- The factor one per-intervention entry contributes to the combined
reduction: its relative effect when present and applicable, 1 otherwise. -/
noncomputable def entryFactor : Option InterventionRecord → ℝ
  | some r => if r.applicable then r.relative_effect else 1
  | none => 1

/-- The CVD/ASCVD predictor-group requirement of the PREVENT spec: total
cholesterol in `[130, 320]`, HDL in `[20, 100]`, and a 0/1 statin flag. -/
def cvdInputsOk (tc hdl : Option ℚ) (statin : ℤ) : Prop :=
  (∃ t, tc = some t ∧ 130 ≤ t ∧ t ≤ 320) ∧
    (∃ h, hdl = some h ∧ 20 ≤ h ∧ h ≤ 100) ∧ (statin = 0 ∨ statin = 1)

/-- The HF predictor-group requirement: BMI in `[18.5, 40)`. -/
def hfInputOk (bmi : Option ℚ) : Prop :=
  ∃ b, bmi = some b ∧ 18.5 ≤ b ∧ b < 40

/-! ## Theorems -/

/-- The resolved race key is always one of the two coefficient groups. -/
lemma pceRaceKey_cases (race : String) :
    pceRaceKey race = "white" ∨ pceRaceKey race = "black" := by
  unfold pceRaceKey
  dsimp only
  by_cases h : race.toLower = "white" ∨ race.toLower = "black" ∨
      race.toLower = "african_american"
  · rcases h with hw | hb | ha
    · left; rw [hw]; decide
    · right; rw [hb]; decide
    · right; rw [ha]; decide
  · left; rw [if_pos h, if_neg (by decide)]

/-- A race outside the supported set resolves to the `white` key. -/
lemma pceRaceKey_of_unsupported (race : String)
    (h : ¬(race.toLower = "white" ∨ race.toLower = "black" ∨
        race.toLower = "african_american")) :
    pceRaceKey race = "white" := by
  unfold pceRaceKey
  dsimp only
  rw [if_pos h, if_neg (by decide)]

/-- C5: for every `qx` strictly between 0 and 1, the three horizon
conversions of `calculate_baseline_mortality` are strictly increasing: the
6-month value `1 − (1−qx)^0.5` is strictly below the 1-year value `qx`,
which is strictly below the 5-year value `1 − (1−qx)^5`. -/
theorem baseline_mortality_horizons_strictly_increasing
    (ssa : List LifeRow) (age : ℤ) (sex : String) (q1 v6 v5 : ℝ)
    (h1 : calculate_baseline_mortality ssa age sex "1_year" = some q1)
    (h6 : calculate_baseline_mortality ssa age sex "6_month" = some v6)
    (h5 : calculate_baseline_mortality ssa age sex "5_year" = some v5)
    (hq0 : 0 < q1) (hq1 : q1 < 1) :
    v6 < q1 ∧ q1 < v5 := by
  unfold calculate_baseline_mortality at h1 h6 h5
  cases hq : lookupQx ssa age sex with
  | none => rw [hq] at h1; simp at h1
  | some qx =>
    rw [hq] at h1 h6 h5
    simp only [Option.bind_some, horizonConvert] at h1 h6 h5
    simp at h1 h6 h5
    subst h1
    have hx0 : (0 : ℝ) < 1 - qx := by linarith
    have hx1 : 1 - qx < 1 := by linarith
    constructor
    · have hlt : (1 - qx) ^ (1 : ℝ) < (1 - qx) ^ ((2 : ℝ)⁻¹) :=
        Real.rpow_lt_rpow_of_exponent_gt hx0 hx1 (by norm_num)
      rw [Real.rpow_one] at hlt
      rw [← h6]
      linarith
    · have hlt : (1 - qx) ^ (5 : ℕ) < (1 - qx) ^ (1 : ℕ) :=
        pow_lt_pow_right_of_lt_one₀ hx0 hx1 (by norm_num)
      rw [pow_one] at hlt
      rw [← h5]
      linarith

/-- C5 witness: a singleton life table with `qx = 1/2` at age 50. -/
theorem baseline_mortality_horizons_witness :
    1 - (1 - (1 / 2 : ℝ)) ^ ((1 : ℝ) / 2) < 1 / 2 ∧
      (1 / 2 : ℝ) < 1 - (1 - (1 / 2 : ℝ)) ^ (5 : ℕ) := by
  have h := baseline_mortality_horizons_strictly_increasing
    [⟨50, 1 / 2, 1 / 2⟩] 50 "male"
    (1 / 2) (1 - (1 - (1 / 2 : ℝ)) ^ ((1 : ℝ) / 2))
    (1 - (1 - (1 / 2 : ℝ)) ^ (5 : ℕ))
    (by simp [calculate_baseline_mortality, lookupQx, horizonConvert])
    (by simp [calculate_baseline_mortality, lookupQx, horizonConvert])
    (by simp [calculate_baseline_mortality, lookupQx, horizonConvert])
    (by norm_num) (by norm_num)
  exact h

/-- C6: the per-cause risks returned by `allocate_cause_risks` always sum
exactly to the input baseline risk: on the CDC path the `other` bucket is the
residual, and on the fallback path each of the three fixed tier tables has
fractions summing to exactly 1. -/
theorem allocate_cause_risks_sums_to_baseline
    (cdc : Option (List CdcRow)) (age : ℤ) (baseline : ℝ) (out : CauseRisks)
    (h : allocate_cause_risks cdc age baseline = some out) :
    out.heart_disease + out.cancer + out.accidents + out.stroke +
      out.diabetes + out.other = baseline := by
  cases cdc with
  | some rows =>
    simp only [allocate_cause_risks] at h
    cases hf : rows.find? (fun row => bandMatches age row.band) with
    | none => rw [hf] at h; simp at h
    | some row =>
      rw [hf] at h
      simp only [Option.some.injEq] at h
      subst h
      ring
  | none =>
    simp only [allocate_cause_risks] at h
    split_ifs at h <;>
      (simp only [Option.some.injEq] at h; subst h; simp; linarith)

/-- C6 witness: the fallback middle tier at age 30 and baseline 1. -/
theorem allocate_cause_risks_sums_witness :
    ((1 : ℝ) * 0.3) + ((1 : ℝ) * 0.25) + ((1 : ℝ) * 0.15) + ((1 : ℝ) * 0.1) +
      ((1 : ℝ) * 0.1) + ((1 : ℝ) * 0.1) = 1 := by
  have h := allocate_cause_risks_sums_to_baseline none 30 1
    ⟨(1 : ℝ) * 0.3, (1 : ℝ) * 0.25, (1 : ℝ) * 0.15, (1 : ℝ) * 0.1,
     (1 : ℝ) * 0.1, (1 : ℝ) * 0.1⟩
    (by norm_num [allocate_cause_risks])
  exact h

/-- The sequential conditional multiplications of the loop body equal the
product of all five applicable multipliers for `heart_disease` (an absent
adjustment contributes the factor 1). -/
lemma cause_rr_for_heart_disease (adj : Adjustments) :
    cause_rr_for adj "heart_disease" =
      adj.smoking_rr.getD 1 * adj.bp_rr.getD 1 * adj.bmi_rr.getD 1 *
        adj.fitness_rr.getD 1 * adj.alcohol_rr.getD 1 := by
  obtain ⟨s, b, m, f, a⟩ := adj
  cases s <;> cases b <;> cases m <;> cases f <;> cases a <;>
    simp +decide [cause_rr_for] <;> norm_num

/-- Same for `stroke`: all five multipliers apply. -/
lemma cause_rr_for_stroke (adj : Adjustments) :
    cause_rr_for adj "stroke" =
      adj.smoking_rr.getD 1 * adj.bp_rr.getD 1 * adj.bmi_rr.getD 1 *
        adj.fitness_rr.getD 1 * adj.alcohol_rr.getD 1 := by
  obtain ⟨s, b, m, f, a⟩ := adj
  cases s <;> cases b <;> cases m <;> cases f <;> cases a <;>
    simp +decide [cause_rr_for] <;> norm_num

/-- For `diabetes`: smoking, BMI and fitness apply. -/
lemma cause_rr_for_diabetes (adj : Adjustments) :
    cause_rr_for adj "diabetes" =
      adj.smoking_rr.getD 1 * adj.bmi_rr.getD 1 * adj.fitness_rr.getD 1 := by
  obtain ⟨s, b, m, f, a⟩ := adj
  cases s <;> cases b <;> cases m <;> cases f <;> cases a <;>
    simp +decide [cause_rr_for] <;> norm_num

/-- For `cancer`: only smoking and fitness apply. -/
lemma cause_rr_for_cancer (adj : Adjustments) :
    cause_rr_for adj "cancer" =
      adj.smoking_rr.getD 1 * adj.fitness_rr.getD 1 := by
  obtain ⟨s, b, m, f, a⟩ := adj
  cases s <;> cases b <;> cases m <;> cases f <;> cases a <;>
    simp +decide [cause_rr_for] <;> norm_num

/-- For `accidents`: only smoking and fitness apply. -/
lemma cause_rr_for_accidents (adj : Adjustments) :
    cause_rr_for adj "accidents" =
      adj.smoking_rr.getD 1 * adj.fitness_rr.getD 1 := by
  obtain ⟨s, b, m, f, a⟩ := adj
  cases s <;> cases b <;> cases m <;> cases f <;> cases a <;>
    simp +decide [cause_rr_for] <;> norm_num

/-- For `other`: only smoking and fitness apply. -/
lemma cause_rr_for_other (adj : Adjustments) :
    cause_rr_for adj "other" =
      adj.smoking_rr.getD 1 * adj.fitness_rr.getD 1 := by
  obtain ⟨s, b, m, f, a⟩ := adj
  cases s <;> cases b <;> cases m <;> cases f <;> cases a <;>
    simp +decide [cause_rr_for] <;> norm_num

/-- C1: whenever the baseline lookup (and the cause allocation it feeds)
succeeds, `calculate_adjusted_risk` multiplies each cause's raw risk by
exactly the applicable multipliers — smoking and fitness for every cause,
blood pressure and alcohol only for heart disease and stroke, BMI only for
heart disease, stroke and diabetes (an absent adjustment is the factor 1) —
and reports `adjusted_total_risk` as the sum of the six adjusted per-cause
risks. -/
theorem calculate_adjusted_risk_composition (ssa : List LifeRow)
    (cdc : Option (List CdcRow)) (age : ℤ) (sex : String) (rf : RiskFactors)
    (horizon : String) (b : ℝ) (cr : CauseRisks)
    (hb : calculate_baseline_mortality ssa age sex horizon = some b)
    (hc : allocate_cause_risks cdc age b = some cr) :
    calculate_adjusted_risk ssa cdc age sex rf horizon =
      some { baseline_risk := b
             adjusted_total_risk :=
               cr.heart_disease * ((calculate_risk_adjustments rf).smoking_rr.getD 1 *
                 (calculate_risk_adjustments rf).bp_rr.getD 1 *
                 (calculate_risk_adjustments rf).bmi_rr.getD 1 *
                 (calculate_risk_adjustments rf).fitness_rr.getD 1 *
                 (calculate_risk_adjustments rf).alcohol_rr.getD 1) +
               cr.cancer * ((calculate_risk_adjustments rf).smoking_rr.getD 1 *
                 (calculate_risk_adjustments rf).fitness_rr.getD 1) +
               cr.accidents * ((calculate_risk_adjustments rf).smoking_rr.getD 1 *
                 (calculate_risk_adjustments rf).fitness_rr.getD 1) +
               cr.stroke * ((calculate_risk_adjustments rf).smoking_rr.getD 1 *
                 (calculate_risk_adjustments rf).bp_rr.getD 1 *
                 (calculate_risk_adjustments rf).bmi_rr.getD 1 *
                 (calculate_risk_adjustments rf).fitness_rr.getD 1 *
                 (calculate_risk_adjustments rf).alcohol_rr.getD 1) +
               cr.diabetes * ((calculate_risk_adjustments rf).smoking_rr.getD 1 *
                 (calculate_risk_adjustments rf).bmi_rr.getD 1 *
                 (calculate_risk_adjustments rf).fitness_rr.getD 1) +
               cr.other * ((calculate_risk_adjustments rf).smoking_rr.getD 1 *
                 (calculate_risk_adjustments rf).fitness_rr.getD 1)
             cause_risks :=
               ⟨cr.heart_disease * ((calculate_risk_adjustments rf).smoking_rr.getD 1 *
                  (calculate_risk_adjustments rf).bp_rr.getD 1 *
                  (calculate_risk_adjustments rf).bmi_rr.getD 1 *
                  (calculate_risk_adjustments rf).fitness_rr.getD 1 *
                  (calculate_risk_adjustments rf).alcohol_rr.getD 1),
                cr.cancer * ((calculate_risk_adjustments rf).smoking_rr.getD 1 *
                  (calculate_risk_adjustments rf).fitness_rr.getD 1),
                cr.accidents * ((calculate_risk_adjustments rf).smoking_rr.getD 1 *
                  (calculate_risk_adjustments rf).fitness_rr.getD 1),
                cr.stroke * ((calculate_risk_adjustments rf).smoking_rr.getD 1 *
                  (calculate_risk_adjustments rf).bp_rr.getD 1 *
                  (calculate_risk_adjustments rf).bmi_rr.getD 1 *
                  (calculate_risk_adjustments rf).fitness_rr.getD 1 *
                  (calculate_risk_adjustments rf).alcohol_rr.getD 1),
                cr.diabetes * ((calculate_risk_adjustments rf).smoking_rr.getD 1 *
                  (calculate_risk_adjustments rf).bmi_rr.getD 1 *
                  (calculate_risk_adjustments rf).fitness_rr.getD 1),
                cr.other * ((calculate_risk_adjustments rf).smoking_rr.getD 1 *
                  (calculate_risk_adjustments rf).fitness_rr.getD 1)⟩
             risk_adjustments := calculate_risk_adjustments rf
             time_horizon := horizon } := by
  unfold calculate_adjusted_risk
  rw [hb]
  simp only [Option.some_bind]
  rw [hc]
  simp only [Option.some_bind, cause_rr_for_heart_disease, cause_rr_for_cancer,
    cause_rr_for_accidents, cause_rr_for_stroke, cause_rr_for_diabetes,
    cause_rr_for_other]

/-- C1 witness: a singleton life table at age 50, no CDC table, the empty
risk-factor set and the 1-year horizon (every absent multiplier is 1). -/
theorem calculate_adjusted_risk_composition_witness :
    calculate_adjusted_risk [⟨50, 0.01, 0.02⟩] none 50 "male" rf_empty
        "1_year" =
      some { baseline_risk := 0.01
             adjusted_total_risk :=
               0.01 * 0.3 * (1 * 1 * 1 * 1 * 1) + 0.01 * 0.25 * (1 * 1) +
                 0.01 * 0.15 * (1 * 1) + 0.01 * 0.1 * (1 * 1 * 1 * 1 * 1) +
                 0.01 * 0.1 * (1 * 1 * 1) + 0.01 * 0.1 * (1 * 1)
             cause_risks :=
               ⟨0.01 * 0.3 * (1 * 1 * 1 * 1 * 1), 0.01 * 0.25 * (1 * 1),
                0.01 * 0.15 * (1 * 1), 0.01 * 0.1 * (1 * 1 * 1 * 1 * 1),
                0.01 * 0.1 * (1 * 1 * 1), 0.01 * 0.1 * (1 * 1)⟩
             risk_adjustments := calculate_risk_adjustments rf_empty
             time_horizon := "1_year" } := by
  exact calculate_adjusted_risk_composition [⟨50, 0.01, 0.02⟩] none 50 "male"
    rf_empty "1_year" 0.01
    ⟨0.01 * 0.3, 0.01 * 0.25, 0.01 * 0.15, 0.01 * 0.1, 0.01 * 0.1, 0.01 * 0.1⟩
    (by simp [calculate_baseline_mortality, lookupQx, horizonConvert])
    (by norm_num [allocate_cause_risks])

/-- C2 counterexample: with reference data available and both reference
reads succeeding (the life-table 1-year lookup returns 0.01, the modelled
baseline expectancy is 40), a zero adjusted risk makes
`_calculate_life_expectancy` return the crude linear heuristic value
`max (85 − 50) 1 = 35` — which is not the floored division the claim
prescribes — because `baseline_ex / risk_multiplier` raises
`ZeroDivisionError`, so the heuristic is not used only on reference-data
failures. -/
theorem life_expectancy_zero_risk_counterexample :
    calculate_baseline_mortality [⟨50, 1 / 100, 2 / 100⟩] 50 "male" "1_year" =
      some (1 / 100) ∧
    api_calculate_life_expectancy (fun _ _ => some 40)
        [⟨50, 1 / 100, 2 / 100⟩] 50 "male" 0 = 35 ∧
    (35 : ℝ) ≠ max ((40 : ℝ) / ((0 : ℝ) / (1 / 100 : ℝ))) 1.0 := by
  refine ⟨by simp [calculate_baseline_mortality, lookupQx, horizonConvert],
    ?_, by norm_num⟩
  unfold api_calculate_life_expectancy
  rw [show calculate_baseline_mortality [⟨50, 1 / 100, 2 / 100⟩] 50 "male"
      "1_year" = some (1 / 100) from
    by simp [calculate_baseline_mortality, lookupQx, horizonConvert]]
  dsimp only
  have hm : (if (1 / 100 : ℝ) > 0 then (0 : ℝ) / (1 / 100) else 1.0) = 0 := by
    rw [if_pos (by norm_num), zero_div]
  rw [if_pos hm]
  norm_num

/-- C2 (amended): with reference data available (the spec-modelled baseline
life-expectancy lookup and the life-table 1-year lookup both succeed) and a
nonzero risk multiplier, `_calculate_life_expectancy` returns the baseline
life expectancy divided by the risk multiplier `adjusted_risk /
baseline_risk` (multiplier 1.0 when the baseline 1-year risk is zero, or
negative), floored at 1 year; the crude linear heuristic `85 − age` (male) /
`88 − age` (female), floored at 1, is used exactly when a reference read
fails or the multiplier is zero (a zero adjusted risk over a positive
baseline risk, where the division raises `ZeroDivisionError`). -/
theorem life_expectancy_model (calcLE : BaselineLifeExpectancy)
    (ssa : List LifeRow) (age : ℤ) (sex : String) (adjusted_risk : ℝ) :
    (∀ be br, calcLE age sex = some be →
      calculate_baseline_mortality ssa age sex "1_year" = some br →
      ¬(br > 0 ∧ adjusted_risk = 0) →
      api_calculate_life_expectancy calcLE ssa age sex adjusted_risk =
        max (be / (if br > 0 then adjusted_risk / br else 1.0)) 1.0) ∧
    ((calcLE age sex = none ∨
        calculate_baseline_mortality ssa age sex "1_year" = none ∨
        (∃ br, calculate_baseline_mortality ssa age sex "1_year" = some br ∧
          br > 0 ∧ adjusted_risk = 0)) →
      api_calculate_life_expectancy calcLE ssa age sex adjusted_risk =
        max (if sex = "male" then (85 : ℝ) - age else (88 : ℝ) - age) 1.0) := by
  constructor
  · intro be br h1 h2 h3
    unfold api_calculate_life_expectancy
    rw [h1, h2]
    dsimp only
    have hm : (if br > 0 then adjusted_risk / br else 1.0) ≠ 0 := by
      split_ifs with hbr
      · exact div_ne_zero (fun ha => h3 ⟨hbr, ha⟩) (ne_of_gt hbr)
      · norm_num
    rw [if_neg hm]
  · intro h
    unfold api_calculate_life_expectancy
    rcases h with h | h | ⟨br, hbr, hpos, hzero⟩
    · cases hcb : calculate_baseline_mortality ssa age sex "1_year" with
      | none => rw [h]
      | some br => rw [h]
    · cases hc : calcLE age sex with
      | none => rw [h]
      | some be => rw [h]
    · cases hc : calcLE age sex with
      | none => rfl
      | some be =>
        rw [hbr]
        dsimp only
        have hm : (if br > 0 then adjusted_risk / br else 1.0) = 0 := by
          rw [if_pos hpos, hzero, zero_div]
        rw [if_pos hm]

/-- C2 witness: a successful reference path with nonzero multiplier
(baseline expectancy 40 years, baseline risk 0.01, adjusted risk 0.02) and a
failing one (empty table). -/
theorem life_expectancy_model_witness :
    api_calculate_life_expectancy (fun _ _ => some 40) [⟨50, 0.01, 0.02⟩] 50
        "male" 0.02 =
      max ((40 : ℝ) / (if (0.01 : ℝ) > 0 then (0.02 : ℝ) / 0.01 else 1.0)) 1.0 ∧
    api_calculate_life_expectancy (fun _ _ => none) [] 50 "male" 0.02 =
      max (if "male" = "male" then (85 : ℝ) - ((50 : ℤ) : ℝ)
           else (88 : ℝ) - ((50 : ℤ) : ℝ)) 1.0 := by
  constructor
  · exact (life_expectancy_model (fun _ _ => some 40) [⟨50, 0.01, 0.02⟩] 50
      "male" 0.02).1 40 0.01 rfl
      (by simp [calculate_baseline_mortality, lookupQx, horizonConvert])
      (by norm_num)
  · exact (life_expectancy_model (fun _ _ => none) [] 50 "male" 0.02).2
      (Or.inl rfl)

/-- One step of the combined-reduction fold multiplies the accumulator by the
entry's contributed factor. -/
lemma interventionFoldStep (acc : ℝ) (r : InterventionRecord) :
    (if r.applicable then acc * r.relative_effect else acc) =
      acc * entryFactor (some r) := by
  cases hr : r.applicable <;> simp [entryFactor, hr]

/-- C7: `model_interventions` reports `relative_reduction` as the product of
the relative effects of exactly the applicable interventions (a missing or
non-applicable intervention contributes the factor 1), and `new_risk` as
`current_risk` times that product; for two applicable interventions, the
combined effect is therefore the product of their individual effects. -/
theorem model_interventions_combined_product (current_risk : ℝ)
    (iv : Interventions) :
    (model_interventions current_risk iv).relative_reduction =
      entryFactor (model_interventions current_risk iv).quit_smoking *
        entryFactor (model_interventions current_risk iv).reduce_bp *
        entryFactor (model_interventions current_risk iv).improve_fitness *
        entryFactor (model_interventions current_risk iv).lose_weight *
        entryFactor (model_interventions current_risk iv).reduce_alcohol ∧
      (model_interventions current_risk iv).new_risk =
        current_risk * (model_interventions current_risk iv).relative_reduction := by
  constructor
  · obtain ⟨q, b, f, w, a⟩ := iv
    cases q <;> cases b <;> cases f <;> cases w <;> cases a <;>
      (unfold model_interventions
       simp only [Option.map_some', Option.map_none', List.filterMap_cons,
         List.filterMap_nil, id_eq, List.foldl_cons, List.foldl_nil,
         interventionFoldStep, show entryFactor none = 1 from rfl]) <;> ring1
  · rfl

/-- The fold that combines relative effects stays within `[0, 1]` when every
applicable record's effect does. -/
lemma interventionFold_bounds (l : List InterventionRecord)
    (hl : ∀ r ∈ l, r.applicable = true →
      0 ≤ r.relative_effect ∧ r.relative_effect ≤ 1)
    (acc : ℝ) (h0 : 0 ≤ acc) (h1 : acc ≤ 1) :
    0 ≤ l.foldl
        (fun acc r => if r.applicable then acc * r.relative_effect else acc)
        acc ∧
      l.foldl
        (fun acc r => if r.applicable then acc * r.relative_effect else acc)
        acc ≤ 1 := by
  induction l generalizing acc with
  | nil => exact ⟨h0, h1⟩
  | cons r t ih =>
    simp only [List.foldl_cons]
    have ht : ∀ s ∈ t, s.applicable = true →
        0 ≤ s.relative_effect ∧ s.relative_effect ≤ 1 :=
      fun s hs => hl s (List.mem_cons_of_mem r hs)
    cases hr : r.applicable with
    | false => simpa [hr] using ih ht acc h0 h1
    | true =>
      obtain ⟨e0, e1⟩ := hl r (List.mem_cons_self r t) hr
      simpa [hr] using
        ih ht (acc * r.relative_effect) (mul_nonneg h0 e0) (mul_le_one₀ h1 e0 e1)

/-- Applicable quit-smoking records carry an effect in `[0, 1]` (0.8). -/
lemma quitSmokingRecord_effect_bounds (c : ℝ) (v : Bool) :
    (quitSmokingRecord c v).applicable = true →
      0 ≤ (quitSmokingRecord c v).relative_effect ∧
        (quitSmokingRecord c v).relative_effect ≤ 1 := by
  have hv : interventionEffects_quit_smoking_immediate = 0.8 := by
    simp +decide [interventionEffects_quit_smoking_immediate,
      get_relative_risk_value, rrdbLookup, rrdbEntries, List.find?]
  cases v <;> simp [quitSmokingRecord, notApplicableRecord, hv] <;> norm_num

/-- Applicable BP-reduction records carry an effect in `[0, 1]`
(`0.85 ^ (amount/10)` with a positive amount). -/
lemma reduceBpRecord_effect_bounds (c v : ℝ) :
    (reduceBpRecord c v).applicable = true →
      0 ≤ (reduceBpRecord c v).relative_effect ∧
        (reduceBpRecord c v).relative_effect ≤ 1 := by
  have hv : interventionEffects_reduce_bp_per10 = 0.85 := by
    simp +decide [interventionEffects_reduce_bp_per10,
      get_relative_risk_value, rrdbLookup, rrdbEntries, List.find?]
  unfold reduceBpRecord
  split_ifs with hpos
  · intro _
    rw [hv]
    constructor
    · exact Real.rpow_nonneg (by norm_num) _
    · exact Real.rpow_le_one (by norm_num) (by norm_num)
        (by positivity)
  · intro happ
    simp [notApplicableRecord] at happ

/-- Applicable fitness records carry an effect in `[0, 1]`
(`1/1.4` or 0.9). -/
lemma improveFitnessRecord_effect_bounds (c : ℝ) (v : String) :
    (improveFitnessRecord c v).applicable = true →
      0 ≤ (improveFitnessRecord c v).relative_effect ∧
        (improveFitnessRecord c v).relative_effect ≤ 1 := by
  have h1 : interventionEffects_sedentary_to_moderate = 1.0 / 1.4 := by
    simp +decide [interventionEffects_sedentary_to_moderate,
      get_relative_risk_value, rrdbLookup, rrdbEntries, List.find?]
  have h2 : interventionEffects_fitness_per_met = 0.9 := by
    simp +decide [interventionEffects_fitness_per_met,
      get_relative_risk_value, rrdbLookup, rrdbEntries, List.find?]
  unfold improveFitnessRecord
  split_ifs with hm hh
  · intro _; rw [h1]; norm_num
  · intro _; rw [h2]; norm_num
  · intro happ; simp [notApplicableRecord] at happ

/-- Applicable weight-loss records carry an effect in `[0, 1]`
(`0.9 ^ (units/5)` with positive units). -/
lemma loseWeightRecord_effect_bounds (c v : ℝ) :
    (loseWeightRecord c v).applicable = true →
      0 ≤ (loseWeightRecord c v).relative_effect ∧
        (loseWeightRecord c v).relative_effect ≤ 1 := by
  have hv : interventionEffects_lose_weight_per5 = 0.9 := by
    simp +decide [interventionEffects_lose_weight_per5,
      get_relative_risk_value, rrdbLookup, rrdbEntries, List.find?]
  unfold loseWeightRecord
  split_ifs with hpos
  · intro _
    rw [hv]
    exact ⟨Real.rpow_nonneg (by norm_num) _,
      Real.rpow_le_one (by norm_num) (by norm_num) (by positivity)⟩
  · intro happ
    simp [notApplicableRecord] at happ

/-- Applicable alcohol records carry an effect in `[0, 1]` (1.0 for both
targets under the shipped table). -/
lemma reduceAlcoholRecord_effect_bounds (c : ℝ) (v : String) :
    (reduceAlcoholRecord c v).applicable = true →
      0 ≤ (reduceAlcoholRecord c v).relative_effect ∧
        (reduceAlcoholRecord c v).relative_effect ≤ 1 := by
  have h1 : interventionEffects_heavy_to_moderate = 1.0 := by
    simp +decide [interventionEffects_heavy_to_moderate,
      get_relative_risk_value, rrdbLookup, rrdbEntries, List.find?]
  unfold reduceAlcoholRecord
  split_ifs with hm hn
  · intro _; rw [h1]; norm_num
  · intro _; norm_num [interventionEffects_moderate_to_none]
  · intro happ; simp [notApplicableRecord] at happ

/-- C9: with the shipped effect table every applicable relative effect is at
most 1, so for any nonnegative current risk `model_interventions` never
reports a combined `new_risk` above the current risk. -/
theorem model_interventions_never_increases_risk (current_risk : ℝ)
    (iv : Interventions) (h : 0 ≤ current_risk) :
    (model_interventions current_risk iv).new_risk ≤ current_risk := by
  have hmem : ∀ r ∈ ([iv.quit_smoking.map (quitSmokingRecord current_risk),
      iv.reduce_bp.map (reduceBpRecord current_risk),
      iv.improve_fitness.map (improveFitnessRecord current_risk),
      iv.lose_weight.map (loseWeightRecord current_risk),
      iv.reduce_alcohol.map (reduceAlcoholRecord current_risk)].filterMap id),
      r.applicable = true → 0 ≤ r.relative_effect ∧ r.relative_effect ≤ 1 := by
    intro r hr
    simp only [List.mem_filterMap, List.mem_cons, List.not_mem_nil, or_false,
      id_eq] at hr
    obtain ⟨o, ho, rfl⟩ := hr
    rcases ho with ho | ho | ho | ho | ho
    · cases hq : iv.quit_smoking with
      | none => rw [hq] at ho; simp at ho
      | some v =>
        rw [hq] at ho
        simp only [Option.map_some', Option.some.injEq] at ho
        subst ho
        exact quitSmokingRecord_effect_bounds current_risk v
    · cases hq : iv.reduce_bp with
      | none => rw [hq] at ho; simp at ho
      | some v =>
        rw [hq] at ho
        simp only [Option.map_some', Option.some.injEq] at ho
        subst ho
        exact reduceBpRecord_effect_bounds current_risk v
    · cases hq : iv.improve_fitness with
      | none => rw [hq] at ho; simp at ho
      | some v =>
        rw [hq] at ho
        simp only [Option.map_some', Option.some.injEq] at ho
        subst ho
        exact improveFitnessRecord_effect_bounds current_risk v
    · cases hq : iv.lose_weight with
      | none => rw [hq] at ho; simp at ho
      | some v =>
        rw [hq] at ho
        simp only [Option.map_some', Option.some.injEq] at ho
        subst ho
        exact loseWeightRecord_effect_bounds current_risk v
    · cases hq : iv.reduce_alcohol with
      | none => rw [hq] at ho; simp at ho
      | some v =>
        rw [hq] at ho
        simp only [Option.map_some', Option.some.injEq] at ho
        subst ho
        exact reduceAlcoholRecord_effect_bounds current_risk v
  have hb := interventionFold_bounds _ hmem 1.0 (by norm_num) (by norm_num)
  exact mul_le_of_le_one_right h hb.2

/-- C9 witness: the empty intervention map at current risk 1. -/
theorem model_interventions_never_increases_risk_witness :
    (model_interventions 1 {}).new_risk ≤ 1 :=
  model_interventions_never_increases_risk 1 {} (by norm_num)

/-- Appending to a fixed string on the left is injective. -/
lemma string_append_left_cancel {a b c : String} (h : a ++ b = a ++ c) :
    b = c := by
  have hd := congrArg String.data h
  rw [String.data_append, String.data_append] at hd
  exact String.ext (List.append_cancel_left hd)

/-- No `white_`-prefixed key collides with `black_male`. -/
lemma white_prefix_ne_black_male (s : String) : "white_" ++ s ≠ "black_male" := by
  intro h
  have hd := congrArg String.data h
  rw [String.data_append] at hd
  rw [show "white_".data = ['w', 'h', 'i', 't', 'e', '_'] from rfl,
    show "black_male".data = ['b', 'l', 'a', 'c', 'k', '_', 'm', 'a', 'l', 'e']
      from rfl] at hd
  simp at hd

/-- No `white_`-prefixed key collides with `black_female`. -/
lemma white_prefix_ne_black_female (s : String) :
    "white_" ++ s ≠ "black_female" := by
  intro h
  have hd := congrArg String.data h
  rw [String.data_append] at hd
  rw [show "white_".data = ['w', 'h', 'i', 't', 'e', '_'] from rfl,
    show "black_female".data =
      ['b', 'l', 'a', 'c', 'k', '_', 'f', 'e', 'm', 'a', 'l', 'e'] from rfl] at hd
  simp at hd

/-- No `black_`-prefixed key collides with `white_male`. -/
lemma black_prefix_ne_white_male (s : String) : "black_" ++ s ≠ "white_male" := by
  intro h
  have hd := congrArg String.data h
  rw [String.data_append] at hd
  rw [show "black_".data = ['b', 'l', 'a', 'c', 'k', '_'] from rfl,
    show "white_male".data = ['w', 'h', 'i', 't', 'e', '_', 'm', 'a', 'l', 'e']
      from rfl] at hd
  simp at hd

/-- No `black_`-prefixed key collides with `white_female`. -/
lemma black_prefix_ne_white_female (s : String) :
    "black_" ++ s ≠ "white_female" := by
  intro h
  have hd := congrArg String.data h
  rw [String.data_append] at hd
  rw [show "black_".data = ['b', 'l', 'a', 'c', 'k', '_'] from rfl,
    show "white_female".data =
      ['w', 'h', 'i', 't', 'e', '_', 'f', 'e', 'm', 'a', 'l', 'e'] from rfl] at hd
  simp at hd

/-- The coefficient dict at a `white_`-prefixed key: a hit exactly for the
two supported sexes. -/
lemma pceCoefficients_white_key (s : String) :
    pceCoefficients ("white_" ++ s) =
      if s = "male" then some pce_white_male
      else if s = "female" then some pce_white_female
      else none := by
  by_cases hm : s = "male"
  · subst hm; rfl
  · by_cases hf : s = "female"
    · subst hf; rfl
    · have h1 : "white_" ++ s ≠ "white_male" := by
        intro h
        exact hm (string_append_left_cancel
          (h.trans (show "white_male" = "white_" ++ "male" from rfl)))
      have h2 : "white_" ++ s ≠ "white_female" := by
        intro h
        exact hf (string_append_left_cancel
          (h.trans (show "white_female" = "white_" ++ "female" from rfl)))
      unfold pceCoefficients
      rw [if_neg h1, if_neg h2, if_neg (white_prefix_ne_black_male s),
        if_neg (white_prefix_ne_black_female s), if_neg hm, if_neg hf]

/-- The coefficient dict at a `black_`-prefixed key: a hit exactly for the
two supported sexes. -/
lemma pceCoefficients_black_key (s : String) :
    pceCoefficients ("black_" ++ s) =
      if s = "male" then some pce_black_male
      else if s = "female" then some pce_black_female
      else none := by
  by_cases hm : s = "male"
  · subst hm; rfl
  · by_cases hf : s = "female"
    · subst hf; rfl
    · have h1 : "black_" ++ s ≠ "black_male" := by
        intro h
        exact hm (string_append_left_cancel
          (h.trans (show "black_male" = "black_" ++ "male" from rfl)))
      have h2 : "black_" ++ s ≠ "black_female" := by
        intro h
        exact hf (string_append_left_cancel
          (h.trans (show "black_female" = "black_" ++ "female" from rfl)))
      unfold pceCoefficients
      rw [if_neg (black_prefix_ne_white_male s),
        if_neg (black_prefix_ne_white_female s), if_neg h1, if_neg h2,
        if_neg hm, if_neg hf]

/-- C4: with positive cholesterol, HDL and SBP values,
`calculate_10_year_risk` returns a non-fatal error record — all three risk
fields `None` and an error message, with no exception — exactly when the age
is outside 40–79 or the lower-cased sex has no coefficient set; and a race
outside {white, black, african_american} is computed with the white
coefficient set (the `white_<sex>` population) rather than failing. -/
theorem pce_error_record_iff (age : ℤ) (sex race : String)
    (total_chol hdl_chol systolic_bp : ℝ) (bp_treated smoker diabetes : Bool)
    (htc : 0 < total_chol) (hhdl : 0 < hdl_chol) (hsbp : 0 < systolic_bp) :
    (((calculate_10_year_risk age sex race total_chol hdl_chol systolic_bp
          bp_treated smoker diabetes).risk_10_year = none ∧
        (calculate_10_year_risk age sex race total_chol hdl_chol systolic_bp
          bp_treated smoker diabetes).risk_5_year = none ∧
        (calculate_10_year_risk age sex race total_chol hdl_chol systolic_bp
          bp_treated smoker diabetes).risk_1_year = none ∧
        (calculate_10_year_risk age sex race total_chol hdl_chol systolic_bp
          bp_treated smoker diabetes).error.isSome = true) ↔
      (age < 40 ∨ age > 79 ∨
        ¬(sex.toLower = "male" ∨ sex.toLower = "female"))) ∧
    (¬(age < 40 ∨ age > 79) →
      ¬(race.toLower = "white" ∨ race.toLower = "black" ∨
          race.toLower = "african_american") →
      (calculate_10_year_risk age sex race total_chol hdl_chol systolic_bp
          bp_treated smoker diabetes).population = "white_" ++ sex.toLower ∧
        ((sex.toLower = "male" ∨ sex.toLower = "female") →
          (calculate_10_year_risk age sex race total_chol hdl_chol systolic_bp
            bp_treated smoker diabetes).risk_10_year.isSome = true)) := by
  by_cases hage : age < 40 ∨ age > 79
  · constructor
    · unfold calculate_10_year_risk
      rw [if_pos hage]
      constructor
      · intro _
        rcases hage with h | h
        · exact Or.inl h
        · exact Or.inr (Or.inl h)
      · intro _
        exact ⟨rfl, rfl, rfl, rfl⟩
    · intro hnot
      exact absurd hage hnot
  · have hwb := pceRaceKey_cases race
    constructor
    · unfold calculate_10_year_risk
      rw [if_neg hage]
      dsimp only
      by_cases hsex : sex.toLower = "male" ∨ sex.toLower = "female"
      · rcases hwb with hk | hk <;> rw [hk] <;>
          [rw [show ("white" : String) ++ "_" ++ sex.toLower =
              "white_" ++ sex.toLower from rfl, pceCoefficients_white_key];
           rw [show ("black" : String) ++ "_" ++ sex.toLower =
              "black_" ++ sex.toLower from rfl, pceCoefficients_black_key]] <;>
          (rcases hsex with hs | hs <;> rw [hs]) <;>
          simp [hage, hs]
      · have hm : ¬sex.toLower = "male" := fun h => hsex (Or.inl h)
        have hf : ¬sex.toLower = "female" := fun h => hsex (Or.inr h)
        rcases hwb with hk | hk <;> rw [hk] <;>
          [rw [show ("white" : String) ++ "_" ++ sex.toLower =
              "white_" ++ sex.toLower from rfl, pceCoefficients_white_key];
           rw [show ("black" : String) ++ "_" ++ sex.toLower =
              "black_" ++ sex.toLower from rfl, pceCoefficients_black_key]] <;>
          rw [if_neg hm, if_neg hf] <;>
          simp [hsex]
    · intro _ hrace
      have hk := pceRaceKey_of_unsupported race hrace
      unfold calculate_10_year_risk
      rw [if_neg hage]
      dsimp only
      rw [hk, show ("white" : String) ++ "_" ++ sex.toLower =
          "white_" ++ sex.toLower from rfl, pceCoefficients_white_key]
      constructor
      · by_cases hm : sex.toLower = "male"
        · rw [if_pos hm]
        · by_cases hf : sex.toLower = "female"
          · rw [if_neg hm, if_pos hf]
          · rw [if_neg hm, if_neg hf]
      · intro hsex
        rcases hsex with hs | hs <;> rw [hs] <;> rfl

/-- C4 witness: age 30 with positive labs — the age gate yields the
non-fatal error record. -/
theorem pce_error_record_iff_witness :
    ((calculate_10_year_risk 30 "male" "white" 200 50 120 false false
          false).risk_10_year = none ∧
      (calculate_10_year_risk 30 "male" "white" 200 50 120 false false
          false).risk_5_year = none ∧
      (calculate_10_year_risk 30 "male" "white" 200 50 120 false false
          false).risk_1_year = none ∧
      (calculate_10_year_risk 30 "male" "white" 200 50 120 false false
          false).error.isSome = true) ↔
      ((30 : ℤ) < 40 ∨ (30 : ℤ) > 79 ∨
        ¬("male".toLower = "male" ∨ "male".toLower = "female")) :=
  (pce_error_record_iff 30 "male" "white" 200 50 120 false false false
    (by norm_num) (by norm_num) (by norm_num)).1

/-- C10: `calculate_from_risk_factors` passes every smoking status other
than `"never"` to the equation as a current smoker, and never reads
`years_since_quit` — so a `"former"` smoker is scored identically to a
`"current"` one, and the quit date has no influence on the PCE output. -/
theorem pce_smoking_status_insensitive :
    (∀ (rf : RiskFactors) (age : ℤ) (sex race : String) (s : String),
      s ≠ "never" →
      calculate_from_risk_factors { rf with smoking_status := some s } age sex
          race =
        calculate_from_risk_factors { rf with smoking_status := some "current" }
          age sex race) ∧
    (∀ (rf : RiskFactors) (age : ℤ) (sex race : String) (y : Option ℝ),
      calculate_from_risk_factors { rf with years_since_quit := y } age sex
          race =
        calculate_from_risk_factors rf age sex race) := by
  constructor
  · intro rf age sex race s hs
    unfold calculate_from_risk_factors
    simp only [Option.getD_some]
    congr 2
    simp [hs]
  · intro rf age sex race y
    unfold calculate_from_risk_factors
    rfl

/-- C10 witness: a former smoker scores exactly as a current smoker. -/
theorem pce_smoking_status_insensitive_witness :
    calculate_from_risk_factors { rf_empty with smoking_status := some "former" }
        55 "male" "white" =
      calculate_from_risk_factors
        { rf_empty with smoking_status := some "current" } 55 "male" "white" :=
  pce_smoking_status_insensitive.1 rf_empty 55 "male" "white" "former"
    (by decide)

/-- `badRange` clears exactly on a present in-range value. -/
lemma badRange_eq_false_iff (x : Option ℚ) (lo hi : ℚ) :
    badRange x lo hi = false ↔ ∃ v, x = some v ∧ lo ≤ v ∧ v ≤ hi := by
  cases x with
  | none => simp [badRange]
  | some v => simp [badRange, not_lt]

/-- `badBmi` clears exactly on a present BMI in `[18.5, 40)`. -/
lemma badBmi_eq_false_iff (x : Option ℚ) :
    badBmi x = false ↔ ∃ b, x = some b ∧ 18.5 ≤ b ∧ b < 40 := by
  cases x with
  | none => simp [badBmi]
  | some b => simp [badBmi, not_lt, not_le]

/-- The `cvd_valid` flag computed by validation is exactly `cvdInputsOk`. -/
lemma cvd_valid_iff (tc hdl : Option ℚ) (statin : ℤ) :
    (!badRange tc 130 320 && !badRange hdl 20 100 &&
      decide (statin = 0 ∨ statin = 1)) = true ↔ cvdInputsOk tc hdl statin := by
  simp [cvdInputsOk, Bool.and_eq_true, Bool.not_eq_true',
    badRange_eq_false_iff, and_assoc]

/-- The `hf_valid` flag computed by validation is exactly `hfInputOk`. -/
lemma hf_valid_iff (bmi : Option ℚ) :
    (!badBmi bmi) = true ↔ hfInputOk bmi := by
  simp [hfInputOk, Bool.not_eq_true', badBmi_eq_false_iff]

/-- Under the core-field hypotheses, `_validate_inputs` passes the core
checks and reduces to the two independent group flags with their messages. -/
lemma prevent_validate_core (sex : ℤ) (a : ℚ) (tc hdl : Option ℚ) (p : ℚ)
    (dm smoking : ℤ) (bmi : Option ℚ) (e : ℚ) (bptreat statin : ℤ)
    (hsex : sex = 0 ∨ sex = 1) (ha1 : 30 ≤ a) (ha2 : a ≤ 79)
    (hp1 : 90 ≤ p) (hp2 : p ≤ 200) (hdm : dm = 0 ∨ dm = 1)
    (hsm : smoking = 0 ∨ smoking = 1) (he : 0 < e)
    (hbp : bptreat = 0 ∨ bptreat = 1) :
    prevent_validate_inputs sex (some a) tc hdl (some p) dm smoking bmi
        (some e) bptreat statin =
      ⟨true,
       (if badRange tc 130 320 then
          ["tc must be between 130-320 mg/dL (CVD/ASCVD unavailable)"] else []) ++
       (if badRange hdl 20 100 then
          ["hdl must be between 20-100 mg/dL (CVD/ASCVD unavailable)"] else []) ++
       (if ¬(statin = 0 ∨ statin = 1) then
          ["statin must be 0 or 1 (CVD/ASCVD unavailable)"] else []) ++
       (if badBmi bmi then
          ["bmi must be between 18.5-39.9 kg/m² (HF unavailable)"] else []),
       !badRange tc 130 320 && !badRange hdl 20 100 &&
         decide (statin = 0 ∨ statin = 1),
       !badBmi bmi⟩ := by
  have h1 : badRange (some a) 30 79 = false := by
    simp [badRange, not_lt]
    constructor <;> linarith
  have h2 : badRange (some p) 90 200 = false := by
    simp [badRange, not_lt]
    constructor <;> linarith
  have h3 : badEgfr (some e) = false := by
    simp [badEgfr, not_le]
    linarith
  unfold prevent_validate_inputs
  rw [if_neg (not_not_intro hsex), if_neg (by simp [h1]),
    if_neg (by simp [h2]), if_neg (not_not_intro hdm),
    if_neg (not_not_intro hsm), if_neg (by simp [h3]),
    if_neg (not_not_intro hbp)]

/-- Supporting lemma: when total cholesterol and HDL are present (so the
`tc - hdl` computation cannot raise) and the core fields are valid, any
result `prevent_base` returns gates its two predictor groups independently:
10-year CVD/ASCVD populated iff the cholesterol/HDL/statin inputs are in
range, 10-year HF populated iff the BMI is, and `valid` stays true. -/
lemma prevent_independent_group_gating (sex : ℤ) (a tcv hdlv p : ℚ)
    (dm smoking : ℤ) (bmi : Option ℚ) (e : ℚ) (bptreat statin : ℤ)
    (hsex : sex = 0 ∨ sex = 1) (ha1 : 30 ≤ a) (ha2 : a ≤ 79)
    (hp1 : 90 ≤ p) (hp2 : p ≤ 200) (hdm : dm = 0 ∨ dm = 1)
    (hsm : smoking = 0 ∨ smoking = 1) (he : 0 < e)
    (hbp : bptreat = 0 ∨ bptreat = 1) (r : PREVENTResult)
    (hr : prevent_base sex (some a) (some tcv) (some hdlv) (some p) dm smoking
      bmi (some e) bptreat statin = some r) :
    (r.risk_10yr_cvd.isSome = true ↔
      cvdInputsOk (some tcv) (some hdlv) statin) ∧
    (r.risk_10yr_ascvd.isSome = true ↔
      cvdInputsOk (some tcv) (some hdlv) statin) ∧
    (r.risk_10yr_hf.isSome = true ↔ hfInputOk bmi) ∧
    r.valid = true := by
  have hval := prevent_validate_core sex a (some tcv) (some hdlv) p dm smoking
    bmi e bptreat statin hsex ha1 ha2 hp1 hp2 hdm hsm he hbp
  unfold prevent_base at hr
  rw [hval] at hr
  dsimp only at hr
  rw [if_neg (by simp)] at hr
  dsimp only [Option.getD_some] at hr
  have hcvd : ∀ x : ℝ,
      (if (!badRange (some tcv) 130 320 && !badRange (some hdlv) 20 100 &&
          decide (statin = 0 ∨ statin = 1)) = true then some x else none
        : Option ℝ).isSome = true ↔ cvdInputsOk (some tcv) (some hdlv) statin := by
    intro x
    by_cases hc : cvdInputsOk (some tcv) (some hdlv) statin
    · rw [if_pos ((cvd_valid_iff (some tcv) (some hdlv) statin).2 hc)]
      simp [hc]
    · rw [if_neg (fun hb => hc ((cvd_valid_iff (some tcv) (some hdlv) statin).1 hb))]
      simp [hc]
  have hhf : ∀ x : ℝ,
      (if (!badBmi bmi) = true then some x else none : Option ℝ).isSome =
        true ↔ hfInputOk bmi := by
    intro x
    by_cases hc : hfInputOk bmi
    · rw [if_pos ((hf_valid_iff bmi).2 hc)]
      simp [hc]
    · rw [if_neg (fun hb => hc ((hf_valid_iff bmi).1 hb))]
      simp [hc]
  by_cases h59 : a > 59
  · rw [if_pos h59] at hr
    injection hr with h
    subst h
    refine ⟨?_, ?_, ?_, rfl⟩
    · exact hcvd _
    · exact hcvd _
    · exact hhf _
  · rw [if_neg h59] at hr
    injection hr with h
    subst h
    refine ⟨?_, ?_, ?_, rfl⟩
    · exact hcvd _
    · exact hcvd _
    · exact hhf _

/-- Supporting lemma: when total cholesterol and HDL are present and the
core fields are valid, any result `prevent_base` returns clears all three
30-year fields with the note when the age exceeds 59, and populates each
computable group's 30-year fields when the age is at most 59. -/
lemma prevent_30yr_age_suppression (sex : ℤ) (a tcv hdlv p : ℚ)
    (dm smoking : ℤ) (bmi : Option ℚ) (e : ℚ) (bptreat statin : ℤ)
    (hsex : sex = 0 ∨ sex = 1) (ha1 : 30 ≤ a) (ha2 : a ≤ 79)
    (hp1 : 90 ≤ p) (hp2 : p ≤ 200) (hdm : dm = 0 ∨ dm = 1)
    (hsm : smoking = 0 ∨ smoking = 1) (he : 0 < e)
    (hbp : bptreat = 0 ∨ bptreat = 1) (r : PREVENTResult)
    (hr : prevent_base sex (some a) (some tcv) (some hdlv) (some p) dm smoking
      bmi (some e) bptreat statin = some r) :
    (a > 59 →
      r.risk_30yr_cvd = none ∧ r.risk_30yr_ascvd = none ∧
      r.risk_30yr_hf = none ∧
      "30-year risks unavailable for age > 59" ∈ r.errors) ∧
    (a ≤ 59 →
      (cvdInputsOk (some tcv) (some hdlv) statin →
        r.risk_30yr_cvd.isSome = true ∧ r.risk_30yr_ascvd.isSome = true) ∧
      (hfInputOk bmi → r.risk_30yr_hf.isSome = true)) := by
  have hval := prevent_validate_core sex a (some tcv) (some hdlv) p dm smoking
    bmi e bptreat statin hsex ha1 ha2 hp1 hp2 hdm hsm he hbp
  unfold prevent_base at hr
  rw [hval] at hr
  dsimp only at hr
  rw [if_neg (by simp)] at hr
  dsimp only [Option.getD_some] at hr
  constructor
  · intro h59
    rw [if_pos h59] at hr
    injection hr with h
    subst h
    refine ⟨rfl, rfl, rfl, ?_⟩
    rw [if_pos ha2]
    exact List.mem_append.mpr (Or.inr (by simp))
  · intro h59
    rw [if_neg (not_lt.mpr h59)] at hr
    injection hr with h
    subst h
    constructor
    · intro hc
      have hb := (cvd_valid_iff (some tcv) (some hdlv) statin).2 hc
      simp only [if_pos hb]
      exact ⟨rfl, rfl⟩
    · intro hc
      have hb := (hf_valid_iff bmi).2 hc
      simp only [if_pos hb]
      rfl

/-- C3 (code bug): at a core-valid input whose total cholesterol is missing,
`_validate_inputs` itself keeps the call valid with `cvd_valid = false`,
`hf_valid = true` and only the CVD-unavailable message — yet `prevent_base`
then raises `TypeError` computing `tc - hdl` and returns no result at all,
so the in-range BMI yields no HF output and the cholesterol group's failure
suppresses the HF group, contrary to the claim (and to the validation's own
design). -/
theorem prevent_missing_tc_typeerror :
    prevent_validate_inputs 1 (some 45) none (some 60) (some 120) 1 0
        (some 25) (some 95) 0 0 =
      ⟨true, ["tc must be between 130-320 mg/dL (CVD/ASCVD unavailable)"],
       false, true⟩ ∧
    prevent_base 1 (some 45) none (some 60) (some 120) 1 0 (some 25)
        (some 95) 0 0 = none := by
  have hval := prevent_validate_core 1 45 none (some 60) 120 1 0 (some 25) 95
    0 0 (Or.inr rfl) (by norm_num) (by norm_num) (by norm_num) (by norm_num)
    (Or.inr rfl) (Or.inl rfl) (by norm_num) (Or.inl rfl)
  constructor
  · rw [hval]
    norm_num [badRange, badBmi]
  · unfold prevent_base
    rw [hval]
    dsimp only
    rw [if_neg (by simp)]

/-- C8 (code bug): at a core-valid input with age 65 whose total cholesterol
is missing, validation keeps the call valid (`hf_valid = true`), but
`prevent_base` raises `TypeError` at `tc - hdl` before ever reaching the
30-year suppression — no result is returned and no note is appended,
contrary to the claim. -/
theorem prevent_missing_tc_no_suppression :
    prevent_validate_inputs 0 (some 65) none (some 50) (some 120) 0 0
        (some 25) (some 90) 0 0 =
      ⟨true, ["tc must be between 130-320 mg/dL (CVD/ASCVD unavailable)"],
       false, true⟩ ∧
    prevent_base 0 (some 65) none (some 50) (some 120) 0 0 (some 25)
        (some 90) 0 0 = none := by
  have hval := prevent_validate_core 0 65 none (some 50) 120 0 0 (some 25) 90
    0 0 (Or.inl rfl) (by norm_num) (by norm_num) (by norm_num) (by norm_num)
    (Or.inl rfl) (Or.inl rfl) (by norm_num) (Or.inl rfl)
  constructor
  · rw [hval]
    norm_num [badRange, badBmi]
  · unfold prevent_base
    rw [hval]
    dsimp only
    rw [if_neg (by simp)]

end LifeRisk
